import Mathlib

/-!
# Mython interpreter: runtime and evaluator

A shallow embedding of `runtime.cpp` and `statement.cpp`.

* Value handles (`ObjectHolder`) are a tagged value; a handle to a
  `ClassInstance` is the address of the instance in `World.heap`, so that
  aliasing handles observe each other's field writes.
* The C++ exceptions are an explicit `Unwind` result which carries the state
  reached when the exception left the node: closures, instances and the output
  stream are mutated in place and keep what was written before the throw.
* Execution is bounded by a fuel counter that is decremented at every nested
  `Execute`; a recursive Mython method may run forever.
* Instances are never removed from `World.heap`. Where a node keeps a raw
  pointer into a handle that it has already destroyed and uses it after further
  evaluation (the left operand of `Sub`, `Mult` and `Div`, the receiver of
  `MethodCall`), `HandleLifetime` says whether the object is still owned; a use
  after free is `Unwind.undefined`. Where no object is created between the
  destruction of the handle and the read (the flag of `IfElse` and `Not`, the
  right operand of `Sub`, `Mult` and `Div`, and their left operand when the
  right one is a constant or a variable), the model gives the value the object
  held. No other lifetime is followed: an instance of `World.heap` is taken to
  be there whenever a handle to it is used, also the non-owning handle `self`.
* Where the outcome depends on a choice C++ leaves to the implementation (the
  order of the two operands of `Comparison`) or on an owner the model does not
  follow (a handle handed on by a method call), the result is
  `Unwind.undetermined`.
-/

namespace Mython

/-! ## Data model -/

/-- Modelled from the spec: the six runtime predicates a `Comparison` node can
carry (`Comparator` is a `std::function` declared in statement.h). -/
inductive Comparator where
  | Equal
  | Less
  | NotEqual
  | Greater
  | LessOrEqual
  | GreaterOrEqual
  deriving DecidableEq, Repr

mutual
/-- Modelled from the spec: the AST node classes, declared in statement.h (their
`Execute` bodies are in statement.cpp). `NumericConst`, `StringConst`,
`BoolConst` and `None` are the literal nodes. `FieldAssignment` owns a
`VariableValue`, kept as its dotted path; `ClassDefinition` owns a handle that
is always a class; `IfElse` has a nullable else branch. -/
inductive Statement where
  | NumericConst (value : Int)
  | StringConst (value : String)
  | BoolConst (value : Bool)
  | None
  | Assignment (var_name : String) (expression : Statement)
  | VariableValue (dotted_ids : List String)
  | Print (args : List Statement)
  | MethodCall (object : Statement) (method : String) (args : List Statement)
  | Stringify (arg : Statement)
  | Add (lhs rhs : Statement)
  | Sub (lhs rhs : Statement)
  | Mult (lhs rhs : Statement)
  | Div (lhs rhs : Statement)
  | Compound (instructions : List Statement)
  | Return (statement : Statement)
  | ClassDefinition (cls : Class)
  | FieldAssignment (object : List String) (field_name : String) (expression : Statement)
  | IfElse (condition if_body : Statement) (else_body : Option Statement)
  | Or (lhs rhs : Statement)
  | And (lhs rhs : Statement)
  | Not (arg : Statement)
  | Comparison (cmp : Comparator) (lhs rhs : Statement)
  | NewInstance (class_ : Class) (args : List Statement)
  | MethodBody (body : Statement)
/-- Modelled from the spec: `runtime::Class` (runtime.h): a name, an ordered
vector of methods and a nullable pointer to the parent class. -/
inductive Class where
  | mk (name_ : String) (methods_ : List Method) (parent_ : Option Class)
/-- Modelled from the spec: `runtime::Method` (runtime.h): a name, the formal
parameter names and the owned body. -/
inductive Method where
  | mk (name : String) (formal_params : List String) (body : Statement)
end

def Method.name : Method → String
  | .mk name _ _ => name

def Method.formal_params : Method → List String
  | .mk _ formal_params _ => formal_params

def Method.body : Method → Statement
  | .mk _ _ body => body

def Class.methods_ : Class → List Method
  | .mk _ methods_ _ => methods_

def Class.parent_ : Class → Option Class
  | .mk _ _ parent_ => parent_

/-- The name given at construction (`Class::GetName`). -/
def Class.GetName : Class → String
  | .mk name_ _ _ => name_

/-- Modelled from the spec: `runtime::ObjectHolder` (runtime.h), the value
handle. `None` is the empty handle; `Number` is a C++ `int`; a handle to an
instance is its address in the heap. -/
inductive ObjectHolder where
  | None
  | Number (value : Int)
  | String (value : String)
  | Bool (value : Bool)
  | Class (cls : Class)
  | ClassInstance (address : Nat)

/-- Modelled from the spec: `runtime::Closure` (runtime.h), a map from names to
handles, kept as an association list with at most one entry per name. -/
abbrev Closure := List (String × ObjectHolder)

/-- Lookup by name (`closure.find(name)`). -/
def Closure.find : Closure → String → Option ObjectHolder
  | [], _ => none
  | (k, v) :: rest, name => if k = name then some v else Closure.find rest name

/-- Insert or replace (`closure[name] = value`, `insert_or_assign`). -/
def Closure.insert_or_assign : Closure → String → ObjectHolder → Closure
  | [], name, value => [(name, value)]
  | (k, v) :: rest, name, value =>
    if k = name then (k, value) :: rest
    else (k, v) :: Closure.insert_or_assign rest name value

/-- Modelled from the spec: `runtime::ClassInstance` (runtime.h): the class it
was created from and its field table. -/
structure ClassInstance where
  class_ : Class
  fields_ : Closure

/-- The mutable state outside closures: every instance allocated so far, at the
position that is its address, and the text written to the context's output
stream. -/
structure World where
  heap : List ClassInstance
  output : String

/-- Append text to the output stream (`context.GetOutputStream() << text`). -/
def World.write (w : World) (text : String) : World :=
  { w with output := w.output ++ text }

/-- Allocate a fresh instance (`ObjectHolder::Own(ClassInstance(cls))`); its
address is the next free position. -/
def World.alloc (w : World) (cls : Class) : Nat × World :=
  (w.heap.length, { w with heap := w.heap ++ [⟨cls, []⟩] })

/-- How evaluation leaves a node other than by returning a handle.
`runtime_error` and `out_of_range` are the C++ exceptions of these names
(`out_of_range` comes from `map::at`), `returned` is the handle thrown by
`Return`, `undefined` is a null dereference or another use of an object that
is not there, `out_of_fuel` is the bound of the model, `undetermined` is an
outcome that the source leaves to the order of evaluation or to the lifetime of
a handle the model does not follow. -/
inductive Unwind where
  | runtime_error (what : String)
  | out_of_range
  | returned (obj : ObjectHolder)
  | undefined
  | out_of_fuel
  | undetermined

/-- Result of a runtime operation: a value or an unwind, and the state. -/
abbrev Result (α : Type) := Except Unwind α × World

/-- Result of executing a node: also the closure, which is passed by reference. -/
abbrev ExecResult := Except Unwind ObjectHolder × Closure × World

/-- Type of `Statement::Execute` one level down. -/
abbrev Executor := Statement → Closure → World → ExecResult

def STR_METHOD : String := "__str__"
def EQUAL_METHOD : String := "__eq__"
def LESS_METHOD : String := "__lt__"
def ADD_METHOD : String := "__add__"
def INIT_METHOD : String := "__init__"

/-! ## runtime.cpp -/

/-- Truthiness of a handle (`runtime::IsTrue`). -/
def IsTrue : ObjectHolder → Bool
  | .Number value => value != 0
  | .String value => !value.isEmpty
  | .Bool value => value == true
  | _ => false

/-- Method lookup (`Class::GetMethod`): the first method of that name in the
own table (`std::find_if`), else the parent's answer, else null. -/
def Class.GetMethod : Class → String → Option Method
  | .mk _ methods_ parent_, name =>
    match methods_.find? (fun method => method.name == name) with
    | some method => some method
    | none =>
      match parent_ with
      | some parent =>
        match parent.GetMethod name with
        | some method_ptr => some method_ptr
        | none => none
      | none => none

/-- Existence of a method with that arity (`ClassInstance::HasMethod`). -/
def ClassInstance.HasMethod (self : ClassInstance) (method : String) (argument_count : Nat) : Bool :=
  match self.class_.GetMethod method with
  | some method_ptr => method_ptr.formal_params.length == argument_count
  | none => false

/-- The closure `ClassInstance::Call` builds: `self` first, then each formal
parameter bound to its actual argument, in order. -/
def ClassInstance.CallClosure (this : Nat) (formal_params : List String)
    (actual_args : List ObjectHolder) : Closure :=
  (List.zip formal_params actual_args).foldl
    (fun args p => Closure.insert_or_assign args p.1 p.2)
    (Closure.insert_or_assign [] "self" (.ClassInstance this))

/-- Method call on the instance at address `this` (`ClassInstance::Call`). The
local closure is dropped when the body is left. -/
def ClassInstance.Call (ex : Executor) (this : Nat) (method : String)
    (actual_args : List ObjectHolder) (w : World) : Result ObjectHolder :=
  match w.heap[this]? with
  | none => (.error .undefined, w)
  | some self =>
    if !self.HasMethod method actual_args.length then
      (.error (.runtime_error "ERROR:Такого метода не существует"), w)
    else
      match self.class_.GetMethod method with
      | none => (.error .undefined, w)
      | some method_ptr =>
        let r := ex method_ptr.body
          (ClassInstance.CallClosure this method_ptr.formal_params actual_args) w
        (r.1, r.2.2)

/-- Modelled from the spec: printing a `Number` writes its decimal form
(`ValueObject<int>::Print`, runtime.h). -/
def Number.Print (value : Int) : String := toString value

/-- Modelled from the spec: printing a `String` writes it raw
(`ValueObject<std::string>::Print`, runtime.h). -/
def String.Print (value : String) : String := value

/-- Text of a `Bool` (`Bool::Print`). -/
def Bool.Print (value : Bool) : String := if value then "True" else "False"

/-- Text of a class (`Class::Print`). -/
def Class.Print (cls : Class) : String := "Class " ++ cls.GetName

/-- Text of `os << this` for an instance without `__str__`: the pointer value,
implementation-defined; here the address in hexadecimal. -/
def addressText (this : Nat) : String := "0x" ++ String.mk (Nat.toDigits 16 this)

/-- Virtual `Object::Print` through a handle, with the instance case given by
`instancePrint`. The text is what is written to `os`; calling through the empty
handle is a null dereference. -/
def Object.Print (instancePrint : Nat → World → Result String) :
    ObjectHolder → World → Result String
  | .None, w => (.error .undefined, w)
  | .Number value, w => (.ok (Number.Print value), w)
  | .String value, w => (.ok (String.Print value), w)
  | .Bool value, w => (.ok (Bool.Print value), w)
  | .Class cls, w => (.ok (Class.Print cls), w)
  | .ClassInstance address, w => instancePrint address w

/-- Text of an instance (`ClassInstance::Print`): the printed form of what
`__str__` returns when the class resolves `__str__` without parameters, else
the address. The `__str__` body runs before anything is written to `os`. -/
def ClassInstance.Print (ex : Executor) : Nat → Nat → World → Result String
  | 0, _, w => (.error .out_of_fuel, w)
  | fuel + 1, this, w =>
    match w.heap[this]? with
    | none => (.error .undefined, w)
    | some self =>
      if self.HasMethod STR_METHOD 0 then
        match ClassInstance.Call ex this STR_METHOD [] w with
        | (.error e, w1) => (.error e, w1)
        | (.ok r, w1) => Object.Print (ClassInstance.Print ex fuel) r w1
      else
        (.ok (addressText this), w)

/-- Equality of two handles (`runtime::Equal`). The result of a delegated
`__eq__` is read through `TryAs<Bool>()`: a result that is not a `Bool` is a
null dereference. -/
def Equal (ex : Executor) (lhs rhs : ObjectHolder) (w : World) : Result Bool :=
  match lhs, rhs with
  | .Number a, .Number b => (.ok (decide (a = b)), w)
  | .String a, .String b => (.ok (decide (a = b)), w)
  | .Bool a, .Bool b => (.ok (decide (a = b)), w)
  | .None, .None => (.ok true, w)
  | .ClassInstance address, _ =>
    match w.heap[address]? with
    | none => (.error .undefined, w)
    | some self =>
      if self.HasMethod EQUAL_METHOD 1 then
        match ClassInstance.Call ex address EQUAL_METHOD [rhs] w with
        | (.error e, w1) => (.error e, w1)
        | (.ok (.Bool b), w1) => (.ok b, w1)
        | (.ok _, w1) => (.error .undefined, w1)
      else
        (.error (.runtime_error "ERROR:These objects cannot be compared"), w)
  | _, _ => (.error (.runtime_error "ERROR:These objects cannot be compared"), w)

/-- The `operator<` of `std::string`: lexicographic order on the characters. -/
def std_string_less : List Char → List Char → Bool
  | _, [] => false
  | [], _ :: _ => true
  | a :: as, b :: bs =>
    if a < b then true else if b < a then false else std_string_less as bs

/-- Strict order of two handles (`runtime::Less`). The result of a delegated
`__lt__` is read through `TryAs<Bool>()`: a result that is not a `Bool` is a
null dereference. -/
def Less (ex : Executor) (lhs rhs : ObjectHolder) (w : World) : Result Bool :=
  match lhs, rhs with
  | .Number a, .Number b => (.ok (decide (a < b)), w)
  | .String a, .String b => (.ok (std_string_less a.data b.data), w)
  | .Bool a, .Bool b => (.ok (decide (a < b)), w)
  | .ClassInstance address, _ =>
    match w.heap[address]? with
    | none => (.error .undefined, w)
    | some self =>
      if self.HasMethod LESS_METHOD 1 then
        match ClassInstance.Call ex address LESS_METHOD [rhs] w with
        | (.error e, w1) => (.error e, w1)
        | (.ok (.Bool b), w1) => (.ok b, w1)
        | (.ok _, w1) => (.error .undefined, w1)
      else
        (.error (.runtime_error "ERROR:These objects cannot be compared by less"), w)
  | _, _ => (.error (.runtime_error "ERROR:These objects cannot be compared by less"), w)

/-- Negation of `Equal` (`runtime::NotEqual`). -/
def NotEqual (ex : Executor) (lhs rhs : ObjectHolder) (w : World) : Result Bool :=
  match Equal ex lhs rhs w with
  | (.error e, w1) => (.error e, w1)
  | (.ok eq, w1) => (.ok (!eq), w1)

/-- Neither less nor equal (`runtime::Greater`); `&&` does not evaluate `Equal`
once `Less` has returned true. -/
def Greater (ex : Executor) (lhs rhs : ObjectHolder) (w : World) : Result Bool :=
  match Less ex lhs rhs w with
  | (.error e, w1) => (.error e, w1)
  | (.ok lt, w1) =>
    if !lt then
      match Equal ex lhs rhs w1 with
      | (.error e, w2) => (.error e, w2)
      | (.ok eq, w2) => (.ok (!eq), w2)
    else
      (.ok false, w1)

/-- Negation of `Greater` (`runtime::LessOrEqual`). -/
def LessOrEqual (ex : Executor) (lhs rhs : ObjectHolder) (w : World) : Result Bool :=
  match Greater ex lhs rhs w with
  | (.error e, w1) => (.error e, w1)
  | (.ok gt, w1) => (.ok (!gt), w1)

/-- Negation of `Less` (`runtime::GreaterOrEqual`). -/
def GreaterOrEqual (ex : Executor) (lhs rhs : ObjectHolder) (w : World) : Result Bool :=
  match Less ex lhs rhs w with
  | (.error e, w1) => (.error e, w1)
  | (.ok lt, w1) => (.ok (!lt), w1)

/-! ## statement.cpp -/

/-- C++ `int` arithmetic: the result reduced to 32 bits, two's complement. -/
def wrapInt (x : Int) : Int := (x + 2147483648) % 4294967296 - 2147483648

/-- Field table of the instance at an address (`ClassInstance::Fields`). -/
def World.Fields (w : World) (address : Nat) : Option Closure :=
  (w.heap[address]?).map ClassInstance.fields_

/-- Field write `fields[field_name] = value` on the instance at an address. -/
def World.setField (w : World) (address : Nat) (field_name : String) (value : ObjectHolder) : World :=
  match w.heap[address]? with
  | none => w
  | some self =>
    let fields := Closure.insert_or_assign self.fields_ field_name value
    { w with heap := w.heap.set address { self with fields_ := fields } }

/-- The loop of `VariableValue::Execute` over the inner names of a dotted path:
`obj = obj.TryAs<ClassInstance>()->Fields().at(name)`. -/
def VariableValue.walk (w : World) : ObjectHolder → List String → Except Unwind ObjectHolder
  | obj, [] => .ok obj
  | .ClassInstance address, name :: rest =>
    match w.Fields address with
    | none => .error .undefined
    | some fields =>
      match Closure.find fields name with
      | none => .error .out_of_range
      | some next => VariableValue.walk w next rest
  | _, _ :: _ => .error .undefined

/-- Read of a variable or of a dotted path (`VariableValue::Execute`). -/
def VariableValue.Execute (dotted_ids : List String) (closure : Closure) (w : World) :
    Except Unwind ObjectHolder :=
  match dotted_ids with
  | [] => .error .undefined
  | [name] =>
    match Closure.find closure name with
    | some value => .ok value
    | none => .error (.runtime_error "ERROR: Unknown name")
  | first :: second :: more =>
    match Closure.find closure first with
    | none => .error .out_of_range
    | some (.ClassInstance address) =>
      match VariableValue.walk w (.ClassInstance address) ((second :: more).dropLast) with
      | .error e => .error e
      | .ok (.ClassInstance last) =>
        match w.Fields last with
        | none => .error .undefined
        | some fields =>
          match Closure.find fields ((second :: more).getLast (List.cons_ne_nil second more)) with
          | some value => .ok value
          | none => .error (.runtime_error "ERROR: Unknown name")
      | .ok _ => .error .undefined
    | some _ => .error (.runtime_error "ERROR:Accessing a non-existent field")

/-- Evaluation of an argument vector, left to right (the `push_back` loops of
`MethodCall::Execute` and `NewInstance::Execute`). -/
def ExecuteArgs (ex : Executor) : List Statement → Closure → World →
    Except Unwind (List ObjectHolder) × Closure × World
  | [], closure, w => (.ok [], closure, w)
  | arg :: rest, closure, w =>
    match ex arg closure w with
    | (.error e, c1, w1) => (.error e, c1, w1)
    | (.ok value, c1, w1) =>
      match ExecuteArgs ex rest c1 w1 with
      | (.error e, c2, w2) => (.error e, c2, w2)
      | (.ok values, c2, w2) => (.ok (value :: values), c2, w2)

/-- What the loop of `Print::Execute` writes for one value: `value->Print` for a
handle that holds an object, the literal `None` for the empty handle. -/
def Print.text (instancePrint : Nat → World → Result String) :
    ObjectHolder → World → Result String
  | .None, w => (.ok "None", w)
  | value, w => Object.Print instancePrint value w

/-- The loop of `Print::Execute`. `first` is the loop flag, `single` is
`args_.size() == 1` (the `break`). Each argument is executed and written before
the next one is executed; the separator is written before the value is
printed. -/
def Print.loop (ex : Executor) (instancePrint : Nat → World → Result String) (single : Bool) :
    Bool → List Statement → Closure → World → Except Unwind Unit × Closure × World
  | _, [], closure, w => (.ok (), closure, w)
  | first, arg :: rest, closure, w =>
    match ex arg closure w with
    | (.error e, c1, w1) => (.error e, c1, w1)
    | (.ok value, c1, w1) =>
      match Print.text instancePrint value (if !first then w1.write " " else w1) with
      | (.error e, w2) => (.error e, c1, w2)
      | (.ok text, w2) =>
        if single then (.ok (), c1, w2.write text)
        else Print.loop ex instancePrint single false rest c1 (w2.write text)

/-- Sequential execution of the children of a `Compound`. -/
def Compound.loop (ex : Executor) : List Statement → Closure → World →
    Except Unwind Unit × Closure × World
  | [], closure, w => (.ok (), closure, w)
  | arg :: rest, closure, w =>
    match ex arg closure w with
    | (.error e, c1, w1) => (.error e, c1, w1)
    | (.ok _, c1, w1) => Compound.loop ex rest c1 w1

/-- Application of the predicate a `Comparison` node carries. -/
def Comparator.apply (ex : Executor) : Comparator → ObjectHolder → ObjectHolder → World → Result Bool
  | .Equal => Mython.Equal ex
  | .Less => Mython.Less ex
  | .NotEqual => Mython.NotEqual ex
  | .Greater => Mython.Greater ex
  | .LessOrEqual => Mython.LessOrEqual ex
  | .GreaterOrEqual => Mython.GreaterOrEqual ex

/-- The constant nodes: their value does not depend on the state, and their
execution neither fails nor changes anything. -/
def Statement.isLiteral : Statement → Bool
  | .NumericConst _ => true
  | .StringConst _ => true
  | .BoolConst _ => true
  | .None => true
  | _ => false

/-- The nodes whose execution changes nothing and creates no object: the
constants and `VariableValue`, which only reads. -/
def Statement.isInert : Statement → Bool
  | .VariableValue _ => true
  | s => s.isLiteral

/-- What becomes of the object behind the handle a node returned, once the
caller has destroyed that handle: `kept` when the node returned a copy of a
handle that stays where it was, `temporary` when the node made the object with
`ObjectHolder::Own` and returned the only handle to it, `handed_on` when the
node returned a handle it got from a method body or from one of its children,
whose other owners the model does not follow. -/
inductive Lifetime where
  | kept
  | temporary
  | handed_on

/-- Modelled from the spec: a constant node (`ValueStatement`, statement.h)
returns a handle to the value stored in the node. -/
def ValueStatement.lifetime : Lifetime := .kept

/-- The lifetime of the handle each `Execute` of statement.cpp returns, for the
statement started in `closure` and `w`. `Assignment`, `VariableValue` and
`FieldAssignment` return a copy of the slot of a closure or field table;
`ClassDefinition` returns its member; `Print` and `Compound` return the empty
handle. `Sub`, `Mult`, `Div`, `Stringify`, `Not`, `Comparison` and
`NewInstance` return `ObjectHolder::Own(...)` (the `self` of `__init__` is a
non-owning `Share`), and so does `Add` unless its left operand is an instance,
when it returns what `__add__` returned. `Or`, `And`, `IfElse`, `MethodCall`
and `MethodBody` return a handle they received; `Return` throws its handle. -/
def HandleLifetime (ex : Executor) : Statement → Closure → World → Lifetime
  | .NumericConst _, _, _ => ValueStatement.lifetime
  | .StringConst _, _, _ => ValueStatement.lifetime
  | .BoolConst _, _, _ => ValueStatement.lifetime
  | .None, _, _ => ValueStatement.lifetime
  | .Assignment _ _, _, _ => .kept
  | .VariableValue _, _, _ => .kept
  | .FieldAssignment _ _ _, _, _ => .kept
  | .ClassDefinition _, _, _ => .kept
  | .Print _, _, _ => .kept
  | .Compound _, _, _ => .kept
  | .Add lhs _, closure, w =>
    match ex lhs closure w with
    | (.ok (.ClassInstance _), _, _) => .handed_on
    | _ => .temporary
  | .Sub _ _, _, _ => .temporary
  | .Mult _ _, _, _ => .temporary
  | .Div _ _, _, _ => .temporary
  | .Stringify _, _, _ => .temporary
  | .Not _, _, _ => .temporary
  | .Comparison _ _ _, _, _ => .temporary
  | .NewInstance _ _, _, _ => .temporary
  | .Or _ _, _, _ => .handed_on
  | .And _ _, _, _ => .handed_on
  | .IfElse _ _ _, _, _ => .handed_on
  | .MethodCall _ _ _, _, _ => .handed_on
  | .MethodBody _, _, _ => .handed_on
  | .Return _, _, _ => .handed_on

/-- The read of a Number through the pointer kept from a handle of the given
lifetime, after an evaluation that may have created objects. -/
def Lifetime.read (l : Lifetime) (value : Int) : Except Unwind Int :=
  match l with
  | .kept => .ok value
  | .temporary => .error .undefined
  | .handed_on => .error .undetermined

/-- The operand pattern of `Sub`, `Mult` and `Div`: both operands are executed,
left first, and of each handle only the raw pointer `TryAs<Number>()` is kept,
the handle being destroyed at the end of its statement. Both pointers must be
non-null. The right operand is read directly after its handle is destroyed and
the model gives its value; the left one is read after the right operand has
run: the model gives its value when the right operand is a constant or a
variable, which create no object, and `Lifetime.read` otherwise. `op` gets the
read of the left operand and the right value and gives the result, or the error
of the operator. -/
def ExecuteNumeric (ex : Executor) (op : Except Unwind Int → Int → Except Unwind ObjectHolder)
    (lhs rhs : Statement) (closure : Closure) (w : World) : ExecResult :=
  match ex lhs closure w with
  | (.error e, c1, w1) => (.error e, c1, w1)
  | (.ok lhs_arg, c1, w1) =>
    match ex rhs c1 w1 with
    | (.error e, c2, w2) => (.error e, c2, w2)
    | (.ok rhs_arg, c2, w2) =>
      match lhs_arg, rhs_arg with
      | .Number a, .Number b =>
        (op (if rhs.isInert then .ok a else (HandleLifetime ex lhs closure w).read a) b, c2, w2)
      | _, _ => (.error (.runtime_error "ERROR: Incorrect operation"), c2, w2)

/-- Whether an execution returned a handle. -/
def ExecResult.returns (r : ExecResult) : Bool :=
  match r with
  | (.ok _, _, _) => true
  | (.error _, _, _) => false

/-- Whether the two operands of `Comparison::Execute`, which are the arguments
of one call and so evaluated in an order C++ does not specify, give the same
outcome in both orders: when one of them is a constant, or when both only read
and at most one of them fails. -/
def Comparison.orderFree (ex : Executor) (lhs rhs : Statement) (closure : Closure)
    (w : World) : Bool :=
  lhs.isLiteral || rhs.isLiteral ||
    (lhs.isInert && rhs.isInert &&
      ((ex lhs closure w).returns || (ex rhs closure w).returns))

/-- The operand pattern of `Or`, `And`: the left operand must be a `Bool`; when
it equals `stop` it is the result, else the right operand is executed. -/
def ExecuteLogical (ex : Executor) (stop : Bool) (lhs rhs : Statement)
    (closure : Closure) (w : World) : ExecResult :=
  match ex lhs closure w with
  | (.error e, c1, w1) => (.error e, c1, w1)
  | (.ok (.Bool value), c1, w1) =>
    if value = stop then (.ok (.Bool value), c1, w1)
    else ex rhs c1 w1
  | (.ok _, c1, w1) => (.error (.runtime_error "ERROR: value does not bool value"), c1, w1)

/-- The operand dispatch of `Add::Execute` once both operands are evaluated. -/
def Add.apply (ex : Executor) (lhs_arg rhs_arg : ObjectHolder) (w : World) : Result ObjectHolder :=
  match lhs_arg, rhs_arg with
  | .Number a, .Number b => (.ok (.Number (wrapInt (a + b))), w)
  | .String a, .String b => (.ok (.String (a ++ b)), w)
  | .ClassInstance address, _ =>
    match w.heap[address]? with
    | none => (.error .undefined, w)
    | some self =>
      if self.HasMethod ADD_METHOD 1 then
        ClassInstance.Call ex address ADD_METHOD [rhs_arg] w
      else
        (.error (.runtime_error "ERROR:Incorrect operation"), w)
  | _, _ => (.error (.runtime_error "ERROR:Incorrect operation"), w)

/-- The branches of `Stringify::Execute` once the argument is evaluated. -/
def Stringify.apply (instancePrint : Nat → World → Result String) (arg : ObjectHolder)
    (w : World) : Result ObjectHolder :=
  match arg with
  | .Number value => (.ok (.String (Number.Print value)), w)
  | .String value => (.ok (.String (String.Print value)), w)
  | .Bool value => (.ok (.String (Bool.Print value)), w)
  | .ClassInstance address =>
    match instancePrint address w with
    | (.error e, w1) => (.error e, w1)
    | (.ok text, w1) => (.ok (.String text), w1)
  | _ => (.ok (.String "None"), w)

/-- `Statement::Execute` for every node of statement.cpp, `fuel` nested
executions deep. `MethodCall` keeps the raw pointer `TryAs<ClassInstance>()` of
the receiver's handle, which is destroyed before the call: the call runs on a
receiver that is kept, and is a use after free on a temporary one. `Comparison`
has a result when the order of its operands cannot be observed
(`Comparison.orderFree`), and is then executed left first. `Div` has no result
for the quotient of the least `int` by -1, which does not fit. -/
def Execute : Nat → Statement → Closure → World → ExecResult
  | 0, _, closure, w => (.error .out_of_fuel, closure, w)
  | fuel + 1, stmt, closure, w =>
    match stmt with
    | .NumericConst value => (.ok (.Number value), closure, w)
    | .StringConst value => (.ok (.String value), closure, w)
    | .BoolConst value => (.ok (.Bool value), closure, w)
    | .None => (.ok .None, closure, w)
    | .Assignment var_name expression =>
      match Execute fuel expression closure w with
      | (.error e, c1, w1) => (.error e, c1, w1)
      | (.ok value, c1, w1) => (.ok value, Closure.insert_or_assign c1 var_name value, w1)
    | .VariableValue dotted_ids =>
      (VariableValue.Execute dotted_ids closure w, closure, w)
    | .Print args =>
      match Print.loop (Execute fuel) (ClassInstance.Print (Execute fuel) fuel)
          (args.length == 1) true args closure w with
      | (.error e, c1, w1) => (.error e, c1, w1)
      | (.ok _, c1, w1) => (.ok .None, c1, w1.write "\n")
    | .MethodCall object method args =>
      match ExecuteArgs (Execute fuel) args closure w with
      | (.error e, c1, w1) => (.error e, c1, w1)
      | (.ok object_args, c1, w1) =>
        match Execute fuel object c1 w1 with
        | (.error e, c2, w2) => (.error e, c2, w2)
        | (.ok (.ClassInstance address), c2, w2) =>
          match HandleLifetime (Execute fuel) object c1 w1 with
          | .kept =>
            let r := ClassInstance.Call (Execute fuel) address method object_args w2
            (r.1, c2, r.2)
          | .temporary => (.error .undefined, c2, w2)
          | .handed_on => (.error .undetermined, c2, w2)
        | (.ok _, c2, w2) =>
          (.error (.runtime_error "ERROR:accessing a non-existent field"), c2, w2)
    | .Stringify arg =>
      match Execute fuel arg closure w with
      | (.error e, c1, w1) => (.error e, c1, w1)
      | (.ok value, c1, w1) =>
        let r := Stringify.apply (ClassInstance.Print (Execute fuel) fuel) value w1
        (r.1, c1, r.2)
    | .Add lhs rhs =>
      match Execute fuel lhs closure w with
      | (.error e, c1, w1) => (.error e, c1, w1)
      | (.ok lhs_arg, c1, w1) =>
        match Execute fuel rhs c1 w1 with
        | (.error e, c2, w2) => (.error e, c2, w2)
        | (.ok rhs_arg, c2, w2) =>
          let r := Add.apply (Execute fuel) lhs_arg rhs_arg w2
          (r.1, c2, r.2)
    | .Sub lhs rhs =>
      ExecuteNumeric (Execute fuel)
        (fun a b => a.map (fun a => .Number (wrapInt (a - b)))) lhs rhs closure w
    | .Mult lhs rhs =>
      ExecuteNumeric (Execute fuel)
        (fun a b => a.map (fun a => .Number (wrapInt (a * b)))) lhs rhs closure w
    | .Div lhs rhs =>
      ExecuteNumeric (Execute fuel)
        (fun a b =>
          if b = 0 then .error (.runtime_error "ERROR: division by 0")
          else a.bind (fun a =>
            if a = -2147483648 ∧ b = -1 then .error .undefined
            else .ok (.Number (wrapInt (Int.tdiv a b)))))
        lhs rhs closure w
    | .Compound instructions =>
      match Compound.loop (Execute fuel) instructions closure w with
      | (.error e, c1, w1) => (.error e, c1, w1)
      | (.ok _, c1, w1) => (.ok .None, c1, w1)
    | .Return statement =>
      match Execute fuel statement closure w with
      | (.error e, c1, w1) => (.error e, c1, w1)
      | (.ok value, c1, w1) => (.error (.returned value), c1, w1)
    | .ClassDefinition cls =>
      (.ok (.Class cls), Closure.insert_or_assign closure cls.GetName (.Class cls), w)
    | .FieldAssignment object field_name expression =>
      match VariableValue.Execute object closure w with
      | .error e => (.error e, closure, w)
      | .ok (.ClassInstance address) =>
        match Execute fuel expression closure w with
        | (.error e, c1, w1) => (.error e, c1, w1)
        | (.ok value, c1, w1) => (.ok value, c1, w1.setField address field_name value)
      | .ok _ =>
        (.error (.runtime_error "ERROR:attempt to access a non-instance class field"), closure, w)
    | .IfElse condition if_body else_body =>
      match Execute fuel condition closure w with
      | (.error e, c1, w1) => (.error e, c1, w1)
      | (.ok (.Bool value), c1, w1) =>
        if value then Execute fuel if_body c1 w1
        else
          match else_body with
          | some body => Execute fuel body c1 w1
          | none => (.ok .None, c1, w1)
      | (.ok _, c1, w1) => (.error (.runtime_error "ERROR: value does not bool value"), c1, w1)
    | .Or lhs rhs => ExecuteLogical (Execute fuel) true lhs rhs closure w
    | .And lhs rhs => ExecuteLogical (Execute fuel) false lhs rhs closure w
    | .Not arg =>
      match Execute fuel arg closure w with
      | (.error e, c1, w1) => (.error e, c1, w1)
      | (.ok (.Bool value), c1, w1) => (.ok (.Bool (!value)), c1, w1)
      | (.ok _, c1, w1) => (.error (.runtime_error "ERROR: value does not bool value"), c1, w1)
    | .Comparison cmp lhs rhs =>
      if Comparison.orderFree (Execute fuel) lhs rhs closure w then
        match Execute fuel lhs closure w with
        | (.error e, c1, w1) => (.error e, c1, w1)
        | (.ok lhs_arg, c1, w1) =>
          match Execute fuel rhs c1 w1 with
          | (.error e, c2, w2) => (.error e, c2, w2)
          | (.ok rhs_arg, c2, w2) =>
            match cmp.apply (Execute fuel) lhs_arg rhs_arg w2 with
            | (.error e, w3) => (.error e, c2, w3)
            | (.ok result, w3) => (.ok (.Bool result), c2, w3)
      else
        (.error .undetermined, closure, w)
    | .NewInstance class_ args =>
      let oh := w.alloc class_
      if (ClassInstance.mk class_ []).HasMethod INIT_METHOD args.length then
        match ExecuteArgs (Execute fuel) args closure oh.2 with
        | (.error e, c1, w1) => (.error e, c1, w1)
        | (.ok new_args, c1, w1) =>
          match ClassInstance.Call (Execute fuel) oh.1 INIT_METHOD new_args w1 with
          | (.error e, w2) => (.error e, c1, w2)
          | (.ok _, w2) => (.ok (.ClassInstance oh.1), c1, w2)
      else
        (.ok (.ClassInstance oh.1), closure, oh.2)
    | .MethodBody body =>
      match Execute fuel body closure w with
      | (.error (.returned obj), c1, w1) => (.ok obj, c1, w1)
      | r => r

/-! ## Reference notions and sample programs -/

/-- The class followed by its ancestors, nearest first. -/
def Class.chain : Class → List Class
  | .mk name_ methods_ none => [.mk name_ methods_ none]
  | .mk name_ methods_ (some parent) => .mk name_ methods_ (some parent) :: parent.chain

/-- Both handles are numbers, both strings, or both Booleans. -/
def samePrimitiveKind : ObjectHolder → ObjectHolder → Bool
  | .Number _, .Number _ => true
  | .String _, .String _ => true
  | .Bool _, .Bool _ => true
  | _, _ => false

/-- Both handles are empty. -/
def bothNone : ObjectHolder → ObjectHolder → Bool
  | .None, .None => true
  | _, _ => false

/-- The arguments of a `Print` are quiet: executed in order from the closure
and the instances given, each returns a value without writing to the output,
and printing that value yields its text, again without writing, whatever the
output holds at that point. `texts` are the printed forms in order; the last
two arguments are the closure and the instances at the end. -/
inductive QuietArgs (ex : Executor) (instancePrint : Nat → World → Result String) :
    List Statement → Closure → List ClassInstance → List String →
    Closure → List ClassInstance → Prop where
  | nil (closure : Closure) (heap : List ClassInstance) :
      QuietArgs ex instancePrint [] closure heap [] closure heap
  | cons (arg : Statement) (rest : List Statement) (closure c1 c2 : Closure)
      (heap h1 h2 h3 : List ClassInstance) (value : ObjectHolder) (text : String)
      (texts : List String)
      (hexec : ∀ out, ex arg closure ⟨heap, out⟩ = (.ok value, c1, ⟨h1, out⟩))
      (hprint : ∀ out, Print.text instancePrint value ⟨h1, out⟩ = (.ok text, ⟨h2, out⟩))
      (hrest : QuietArgs ex instancePrint rest c1 h2 texts c2 h3) :
      QuietArgs ex instancePrint (arg :: rest) closure heap (text :: texts) c2 h3

/-- The value of a decimal digit string read left to right from `init`. -/
def decimalValue (cs : List Char) (init : Nat) : Nat :=
  cs.foldl (fun n c => n * 10 + (c.toNat - '0'.toNat)) init

/-- A class whose method `g()` prints `b` and returns 2. -/
def class_G : Class :=
  .mk "G" [.mk "g" [] (.MethodBody (.Compound
    [.Print [.StringConst "b"], .Return (.NumericConst 2)]))] none

/-- The arguments of `print 1, x.g()`. -/
def print_args_with_output : List Statement :=
  [.NumericConst 1, .MethodCall (.VariableValue ["x"]) "g" []]

/-- The state a program starts in: no instance, nothing written. -/
def World.empty : World := ⟨[], ""⟩

/-- Method `m()` of the parent class `P`: `return 1`. -/
def P_m : Method := .mk "m" [] (.MethodBody (.Return (.NumericConst 1)))

/-- Method `k(a, b)` of the parent class `P`: `return 2`. -/
def P_k : Method := .mk "k" ["a", "b"] (.MethodBody (.Return (.NumericConst 2)))

/-- Method `m()` of the derived class `C`: `return 3`. -/
def C_m : Method := .mk "m" [] (.MethodBody (.Return (.NumericConst 3)))

/-- Method `k(a)` of the derived class `C`: `return 4`. -/
def C_k : Method := .mk "k" ["a"] (.MethodBody (.Return (.NumericConst 4)))

/-- `class P` with `m()` and `k(a, b)`. -/
def class_P : Class := .mk "P" [P_m, P_k] none

/-- `class C(P)` overriding `m()` only. -/
def class_C : Class := .mk "C" [C_m] (some class_P)

/-- `class D(P)` defining `k(a)`, which hides the parent's `k(a, b)`. -/
def class_D : Class := .mk "D" [C_k] (some class_P)

/-- The first `f` of `TestMethodOverloading`. -/
def X_f1 : Method :=
  .mk "f" ["a"] (.MethodBody (.Compound [.Print [.StringConst "one parameter overload"]]))

/-- The second `f` of `TestMethodOverloading`. -/
def X_f2 : Method :=
  .mk "f" ["a", "b"] (.MethodBody (.Compound [.Print [.StringConst "two parameters overload"]]))

/-- `class X` of `TestMethodOverloading`: two methods `f`, in textual order. -/
def class_X : Class := .mk "X" [X_f1, X_f2] none

/-- First program of `TestMethodOverloading`: `x = X()`, `x.f(1)`. -/
def overloading_input1 : Statement :=
  .Compound [.ClassDefinition class_X, .Assignment "x" (.NewInstance class_X []),
    .MethodCall (.VariableValue ["x"]) "f" [.NumericConst 1]]

/-- Second program of `TestMethodOverloading`: `x = X()`, `x.f(1, 2)`. -/
def overloading_input2 : Statement :=
  .Compound [.ClassDefinition class_X, .Assignment "x" (.NewInstance class_X []),
    .MethodCall (.VariableValue ["x"]) "f" [.NumericConst 1, .NumericConst 2]]

/-- A class whose method `get(self)` has a formal parameter named `self` and
returns `self`; `me()` has no parameter and returns `self`. -/
def class_S : Class :=
  .mk "S" [.mk "get" ["self"] (.MethodBody (.Return (.VariableValue ["self"]))),
           .mk "me" [] (.MethodBody (.Return (.VariableValue ["self"])))] none

/-- The value is representable as a C++ `int`. -/
def fitsInt (x : Int) : Prop := -2147483648 ≤ x ∧ x < 2147483648

/-- The product of two sums, `(1 + 2) * (3 + 4)`. -/
def product_of_sums : Statement :=
  .Mult (.Add (.NumericConst 1) (.NumericConst 2)) (.Add (.NumericConst 3) (.NumericConst 4))

/-- The difference of two sums, `(2 + 3) - (1 + 2)`. -/
def difference_of_sums : Statement :=
  .Sub (.Add (.NumericConst 2) (.NumericConst 3)) (.Add (.NumericConst 1) (.NumericConst 2))

/-- The quotient of two sums, `(10 + 10) / (2 + 3)`. -/
def quotient_of_sums : Statement :=
  .Div (.Add (.NumericConst 10) (.NumericConst 10)) (.Add (.NumericConst 2) (.NumericConst 3))

/-- The sum of two sums, `(1 + 2) + (3 + 4)`. -/
def sum_of_sums : Statement :=
  .Add (.Add (.NumericConst 1) (.NumericConst 2)) (.Add (.NumericConst 3) (.NumericConst 4))

/-- A right operand with every kind of effect: it rebinds `x`, prints and then
divides by zero. -/
def noisy_operand : Statement :=
  .Compound [.Assignment "x" (.NumericConst 1), .Print [.StringConst "evaluated"],
    .Div (.NumericConst 1) (.NumericConst 0)]

/-- The program of `TestStringBoolConversion`:
`if "123": print "truthy" else: print "falsey"`. -/
def string_condition_input : Statement :=
  .Compound [.IfElse (.StringConst "123")
    (.Compound [.Print [.StringConst "truthy"]])
    (some (.Compound [.Print [.StringConst "falsey"]]))]

/-- The program of `TestNoneBoolConversion`:
`if None: print "truthy" else: print "falsey"`. -/
def none_condition_input : Statement :=
  .Compound [.IfElse .None
    (.Compound [.Print [.StringConst "truthy"]])
    (some (.Compound [.Print [.StringConst "falsey"]]))]

/-- `class X` of `TextAssigment2`: `__init__` sets `value` to 123. -/
def class_X123 : Class :=
  .mk "X" [.mk "__init__" [] (.MethodBody (.Compound
    [.FieldAssignment ["self"] "value" (.NumericConst 123)]))] none

/-- `class Z` of `TextAssigment2`: `spawn()` returns `X()`. -/
def class_Z : Class :=
  .mk "Z" [.mk "spawn" [] (.MethodBody (.Compound
    [.Return (.NewInstance class_X123 [])]))] none

/-- The program of `TextAssigment2`, followed by `print a.value, b.value`. -/
def spawn_input : Statement :=
  .Compound [.ClassDefinition class_X123, .ClassDefinition class_Z,
    .Assignment "z" (.NewInstance class_Z []),
    .Assignment "a" (.MethodCall (.VariableValue ["z"]) "spawn" []),
    .FieldAssignment ["a"] "value" (.NumericConst 456),
    .Assignment "b" (.MethodCall (.VariableValue ["z"]) "spawn" []),
    .IfElse (.Comparison .Equal (.VariableValue ["a", "value"]) (.NumericConst 456))
      (.Compound [.Print [.StringConst "Success"]])
      (some (.Compound [.Print [.StringConst "Failure", .VariableValue ["a", "value"]]])),
    .Print [.VariableValue ["a", "value"], .VariableValue ["b", "value"]]]

/-- `class A` of `TestABC`: `__init__` sets `n` to 0. -/
def class_A : Class :=
  .mk "A" [.mk "__init__" [] (.MethodBody (.Compound
    [.FieldAssignment ["self"] "n" (.NumericConst 0)]))] none

/-- `class B` of `TestABC2`: `__init__` sets `not_a` to 0, there is no field `a`. -/
def class_B2 : Class :=
  .mk "B" [.mk "__init__" [] (.MethodBody (.Compound
    [.FieldAssignment ["self"] "not_a" (.NumericConst 0)]))] none

/-- `class C` of `TestABC2`: `__init__` sets `b` to `B()` and `a` to `A()`. -/
def class_C2 : Class :=
  .mk "C" [.mk "__init__" [] (.MethodBody (.Compound
    [.FieldAssignment ["self"] "b" (.NewInstance class_B2 []),
     .FieldAssignment ["self"] "a" (.NewInstance class_A [])]))] none

/-- The program of `TestABC2`: `c = C()`, `print c.b.a.n`. -/
def abc2_input : Statement :=
  .Compound [.ClassDefinition class_A, .ClassDefinition class_B2, .ClassDefinition class_C2,
    .Assignment "c" (.NewInstance class_C2 []),
    .Print [.VariableValue ["c", "b", "a", "n"]]]

/-- Two instances of `class X`, both with `value` 123. -/
def two_X_world : World :=
  ⟨[⟨class_X123, [("value", .Number 123)]⟩, ⟨class_X123, [("value", .Number 123)]⟩], ""⟩

/-- A class whose `__eq__(other)` and `__lt__(other)` return their argument. -/
def class_Echo : Class :=
  .mk "Echo"
    [.mk "__eq__" ["other"] (.MethodBody (.Return (.VariableValue ["other"]))),
     .mk "__lt__" ["other"] (.MethodBody (.Return (.VariableValue ["other"])))] none

/-- One instance of `Echo`, nothing written. -/
def echo_world : World := ⟨[⟨class_Echo, []⟩], ""⟩

/-- A class that defines `__lt__(other)`, returning its argument, and no
`__eq__`. -/
def class_L : Class :=
  .mk "L" [.mk "__lt__" ["other"] (.MethodBody (.Return (.VariableValue ["other"])))] none

/-! ## Lemmas on closures and method tables -/

theorem find_first (name : String) (pre : List Method) (m : Method) (post : List Method)
    (hm : m.name = name) (hpre : ∀ x ∈ pre, x.name ≠ name) :
    (pre ++ m :: post).find? (fun method => method.name == name) = some m := by
  induction pre with
  | nil => simp [List.find?, hm]
  | cons x xs ih =>
    have hx : x.name ≠ name := hpre x (List.mem_cons_self _ _)
    have hb : (x.name == name) = false := by simpa using hx
    rw [List.cons_append, List.find?_cons, hb]
    exact ih (fun y hy => hpre y (List.mem_cons_of_mem _ hy))

theorem GetMethod_first (c : Class) (name : String) (pre : List Method) (m : Method)
    (post : List Method) (hc : c.methods_ = pre ++ m :: post)
    (hm : m.name = name) (hpre : ∀ x ∈ pre, x.name ≠ name) :
    c.GetMethod name = some m := by
  cases c with
  | mk n ms p =>
    change ms = pre ++ m :: post at hc
    subst hc
    cases p <;> simp only [Class.GetMethod, find_first name pre m post hm hpre]

theorem GetMethod_parent (c : Class) (name : String)
    (hown : ∀ m ∈ c.methods_, m.name ≠ name) :
    c.GetMethod name = c.parent_.bind (fun parent => parent.GetMethod name) := by
  cases c with
  | mk n ms p =>
    change ∀ m ∈ ms, m.name ≠ name at hown
    have hf : ms.find? (fun method => method.name == name) = none := by simpa using hown
    cases p with
    | none => simp only [Class.GetMethod, hf, Class.parent_, Option.bind]
    | some parent =>
      simp only [Class.GetMethod, hf, Class.parent_, Option.bind]
      cases parent.GetMethod name <;> rfl

theorem GetMethod_none_iff : (c : Class) → (name : String) →
    (c.GetMethod name = none ↔ ∀ k ∈ c.chain, ∀ m ∈ k.methods_, m.name ≠ name)
  | .mk n ms none, name => by
    simp only [Class.GetMethod, Class.chain, List.mem_singleton, forall_eq, Class.methods_]
    cases h : ms.find? (fun method => method.name == name) with
    | none => simpa using h
    | some m =>
      simp only [false_iff, reduceCtorEq]
      intro hall
      have hn := List.find?_some h
      exact hall m (List.mem_of_find?_eq_some h) (by simpa using hn)
  | .mk n ms (some p), name => by
    have ih := GetMethod_none_iff p name
    simp only [Class.GetMethod, Class.chain, List.mem_cons, forall_eq_or_imp, Class.methods_]
    cases h : ms.find? (fun method => method.name == name) with
    | none =>
      have h1 : ∀ m ∈ ms, m.name ≠ name := by simpa using h
      cases hp : p.GetMethod name with
      | none => simp only [true_iff]; exact ⟨h1, ih.mp hp⟩
      | some m =>
        simp only [false_iff, reduceCtorEq]
        intro hall
        have hnone := ih.mpr hall.2
        rw [hp] at hnone; cases hnone
    | some m =>
      simp only [false_iff, reduceCtorEq]
      intro hall
      have hn := List.find?_some h
      exact hall.1 m (List.mem_of_find?_eq_some h) (by simpa using hn)

theorem HasMethod_iff (self : ClassInstance) (method : String) (n : Nat) :
    self.HasMethod method n = true ↔
      ∃ m, self.class_.GetMethod method = some m ∧ m.formal_params.length = n := by
  unfold ClassInstance.HasMethod
  cases h : self.class_.GetMethod method with
  | none => simp
  | some m => simp

theorem Call_no_method (ex : Executor) (this : Nat) (method : String)
    (actual_args : List ObjectHolder) (w : World) (self : ClassInstance)
    (h : w.heap[this]? = some self)
    (hno : self.HasMethod method actual_args.length = false) :
    ClassInstance.Call ex this method actual_args w =
      (.error (.runtime_error "ERROR:Такого метода не существует"), w) := by
  simp [ClassInstance.Call, h, hno]

theorem Call_method (ex : Executor) (this : Nat) (method : String)
    (actual_args : List ObjectHolder) (w : World) (self : ClassInstance)
    (h : w.heap[this]? = some self) (m : Method)
    (hm : self.class_.GetMethod method = some m)
    (ha : m.formal_params.length = actual_args.length) :
    ClassInstance.Call ex this method actual_args w =
      ((ex m.body (ClassInstance.CallClosure this m.formal_params actual_args) w).1,
       (ex m.body (ClassInstance.CallClosure this m.formal_params actual_args) w).2.2) := by
  have hh : self.HasMethod method actual_args.length = true :=
    (HasMethod_iff self method _).mpr ⟨m, hm, ha⟩
  simp [ClassInstance.Call, h, hh, hm]

theorem find_insert_same (c : Closure) (k : String) (v : ObjectHolder) :
    Closure.find (Closure.insert_or_assign c k v) k = some v := by
  induction c with
  | nil => simp [Closure.insert_or_assign, Closure.find]
  | cons p rest ih =>
    obtain ⟨k', v'⟩ := p
    by_cases hk : k' = k
    · simp [Closure.insert_or_assign, Closure.find, hk]
    · simp [Closure.insert_or_assign, Closure.find, hk, ih]

theorem find_insert_other (c : Closure) (k k2 : String) (v : ObjectHolder) (hne : k ≠ k2) :
    Closure.find (Closure.insert_or_assign c k v) k2 = Closure.find c k2 := by
  induction c with
  | nil => simp [Closure.insert_or_assign, Closure.find, hne]
  | cons p rest ih =>
    obtain ⟨k', v'⟩ := p
    by_cases hk : k' = k
    · subst hk
      simp [Closure.insert_or_assign, Closure.find, hne]
    · by_cases hk2 : k' = k2
      · subst hk2
        simp [Closure.insert_or_assign, Closure.find, hk]
      · simp [Closure.insert_or_assign, Closure.find, hk, hk2, ih]

theorem find_foldl_other (ps : List (String × ObjectHolder)) (c : Closure) (k : String)
    (h : ∀ p ∈ ps, p.1 ≠ k) :
    Closure.find (ps.foldl (fun args p => Closure.insert_or_assign args p.1 p.2) c) k
      = Closure.find c k := by
  induction ps generalizing c with
  | nil => rfl
  | cons p rest ih =>
    simp only [List.foldl_cons]
    rw [ih _ (fun q hq => h q (List.mem_cons_of_mem _ hq))]
    exact find_insert_other c p.1 k p.2 (h p (List.mem_cons_self _ _))

theorem CallClosure_self (this : Nat) (formal_params : List String)
    (actual_args : List ObjectHolder) (h : "self" ∉ formal_params) :
    Closure.find (ClassInstance.CallClosure this formal_params actual_args) "self"
      = some (.ClassInstance this) := by
  unfold ClassInstance.CallClosure
  rw [find_foldl_other]
  · exact find_insert_same [] "self" _
  · intro p hp heq
    exact h (heq ▸ (List.of_mem_zip hp).1)

/-! ## Lemmas on the comparison predicates -/

theorem std_string_less_iff_lex (l1 l2 : List Char) :
    std_string_less l1 l2 = true ↔ List.Lex (· < ·) l1 l2 := by
  induction l1 generalizing l2 with
  | nil =>
    cases l2 with
    | nil => simp [std_string_less]
    | cons b bs => simp [std_string_less, List.Lex.nil]
  | cons a as ih =>
    cases l2 with
    | nil => simp [std_string_less]
    | cons b bs =>
      simp only [std_string_less]
      rcases lt_trichotomy a b with h | h | h
      · simp [h, List.Lex.rel h]
      · subst h
        simp [ih bs, List.Lex.cons_iff]
      · have h' : ¬ a < b := h.asymm
        simp only [h', h, if_true, if_false]
        simp only [Bool.false_eq_true, false_iff]
        intro hl
        cases hl with
        | cons hl => exact lt_irrefl _ h
        | rel hl => exact h' hl

theorem std_string_less_eq (a b : String) : std_string_less a.data b.data = decide (a < b) := by
  have h : std_string_less a.data b.data = true ↔ a < b :=
    (std_string_less_iff_lex a.data b.data).trans String.lt_iff_toList_lt.symm
  cases hb : std_string_less a.data b.data
  · have : ¬ a < b := fun hlt => by rw [h.mpr hlt] at hb; cases hb
    simp [this]
  · simp [h.mp hb]

theorem derived_results (ex : Executor) (lhs rhs : ObjectHolder) (w : World) (lt eq : Bool)
    (hl : Less ex lhs rhs w = (.ok lt, w)) (he : Equal ex lhs rhs w = (.ok eq, w)) :
    NotEqual ex lhs rhs w = (.ok (!eq), w) ∧
    Greater ex lhs rhs w = (.ok (!lt && !eq), w) ∧
    LessOrEqual ex lhs rhs w = (.ok (!(!lt && !eq)), w) ∧
    GreaterOrEqual ex lhs rhs w = (.ok (!lt), w) := by
  have hg : Greater ex lhs rhs w = (.ok (!lt && !eq), w) := by
    cases lt <;> simp [Greater, hl, he]
  refine ⟨?_, hg, ?_, ?_⟩
  · simp [NotEqual, he]
  · simp [LessOrEqual, hg]
  · simp [GreaterOrEqual, hl]

theorem order_bools {α : Type} [LinearOrder α] (a b : α)
    {d1 : Decidable (a = b)} {d2 : Decidable (a < b)} {d3 : Decidable (a ≠ b)}
    {d4 : Decidable (a > b)} {d5 : Decidable (a ≤ b)} {d6 : Decidable (a ≥ b)} :
    (!@decide (a = b) d1) = @decide (a ≠ b) d3 ∧
    (!@decide (a < b) d2 && !@decide (a = b) d1) = @decide (a > b) d4 ∧
    (!(!@decide (a < b) d2 && !@decide (a = b) d1)) = @decide (a ≤ b) d5 ∧
    (!@decide (a < b) d2) = @decide (a ≥ b) d6 := by
  rcases lt_trichotomy a b with h | h | h
  · have h1 := h.ne; have h2 := h.le; have h3 := h.not_lt; have h4 := not_le.mpr h
    simp [h, h1, h2, h3, h4]
  · subst h; simp
  · have h1 := h.ne'; have h2 := h.le; have h3 := h.not_lt; have h4 := not_le.mpr h
    simp [h, h1, h2, h3, h4]

/-- The six predicates on two handles whose `Less` and `Equal` are the order
and the equality of values `a`, `b` of a linear order. -/
theorem compare_by_value {α : Type} [LinearOrder α] (a b : α)
    {d1 : Decidable (a = b)} {d2 : Decidable (a < b)} {d3 : Decidable (a ≠ b)}
    {d4 : Decidable (a > b)} {d5 : Decidable (a ≤ b)} {d6 : Decidable (a ≥ b)}
    (ex : Executor) (lhs rhs : ObjectHolder) (w : World)
    (hl : Less ex lhs rhs w = (.ok (@decide (a < b) d2), w))
    (he : Equal ex lhs rhs w = (.ok (@decide (a = b) d1), w)) :
    Equal ex lhs rhs w = (.ok (@decide (a = b) d1), w) ∧
    Less ex lhs rhs w = (.ok (@decide (a < b) d2), w) ∧
    NotEqual ex lhs rhs w = (.ok (@decide (a ≠ b) d3), w) ∧
    Greater ex lhs rhs w = (.ok (@decide (a > b) d4), w) ∧
    LessOrEqual ex lhs rhs w = (.ok (@decide (a ≤ b) d5), w) ∧
    GreaterOrEqual ex lhs rhs w = (.ok (@decide (a ≥ b) d6), w) := by
  obtain ⟨h1, h2, h3, h4⟩ := derived_results ex lhs rhs w _ _ hl he
  obtain ⟨k1, k2, k3, k4⟩ := @order_bools α _ a b d1 d2 d3 d4 d5 d6
  refine ⟨he, hl, ?_, ?_, ?_, ?_⟩
  · rw [h1, k1]
  · rw [h2, k2]
  · rw [h3, k3]
  · rw [h4, k4]

theorem greater_by_value {α : Type} [LinearOrder α] (a b : α)
    {d1 : Decidable (a = b)} {d2 : Decidable (a < b)} {d4 : Decidable (a > b)}
    (ex : Executor) (lhs rhs : ObjectHolder) (w : World)
    (hl : Less ex lhs rhs w = (.ok (@decide (a < b) d2), w))
    (he : Equal ex lhs rhs w = (.ok (@decide (a = b) d1), w)) :
    Greater ex lhs rhs w = (.ok (@decide (a > b) d4), w) :=
  (@compare_by_value α _ a b d1 d2 inferInstance d4 inferInstance inferInstance
    ex lhs rhs w hl he).2.2.2.1

theorem exactly_one_bools {α : Type} [LinearOrder α] (a b : α)
    {d1 : Decidable (a = b)} {d2 : Decidable (a < b)} {d4 : Decidable (a > b)} :
    ((@decide (a < b) d2 && !@decide (a = b) d1 && !@decide (a > b) d4) ||
     (!@decide (a < b) d2 && @decide (a = b) d1 && !@decide (a > b) d4) ||
     (!@decide (a < b) d2 && !@decide (a = b) d1 && @decide (a > b) d4)) = true := by
  rcases lt_trichotomy a b with h | h | h
  · simp [h, h.ne, h.not_lt]
  · subst h; simp
  · simp [h, h.ne', h.not_lt]

/-! ## Claims -/

/-- C1: `IsTrue` follows the truthiness table: a Number is true iff it is
nonzero, a String iff it is non-empty, a Bool iff its value is true, and the
empty handle, every Class and every ClassInstance are false. -/
theorem C1_IsTrue_truthiness_table :
    (∀ n : Int, IsTrue (.Number n) = true ↔ n ≠ 0) ∧
    (∀ s : String, IsTrue (.String s) = true ↔ s ≠ "") ∧
    (∀ b : Bool, IsTrue (.Bool b) = b) ∧
    IsTrue .None = false ∧
    (∀ cls : Class, IsTrue (.Class cls) = false) ∧
    (∀ address : Nat, IsTrue (.ClassInstance address) = false) := by
  refine ⟨?_, ?_, ?_, rfl, fun _ => rfl, fun _ => rfl⟩
  · intro n; simp [IsTrue]
  · intro s
    have hs := String.isEmpty_iff s
    cases he : s.isEmpty <;> simp_all [IsTrue]
  · intro b; cases b <;> rfl

/-- C2: `Class::GetMethod` is single-inheritance resolution: the first method
of that name in the own table when there is one; otherwise what the parent
resolves (nothing without a parent); and nothing exactly when no class of the
chain has a method of that name. -/
theorem C2_GetMethod_resolution (c : Class) (name : String) :
    (∀ pre m post, c.methods_ = pre ++ m :: post → m.name = name →
        (∀ x ∈ pre, x.name ≠ name) → c.GetMethod name = some m) ∧
    ((∀ m ∈ c.methods_, m.name ≠ name) →
        c.GetMethod name = c.parent_.bind (fun parent => parent.GetMethod name)) ∧
    (c.GetMethod name = none ↔ ∀ k ∈ c.chain, ∀ m ∈ k.methods_, m.name ≠ name) :=
  ⟨fun pre m post hc hm hpre => GetMethod_first c name pre m post hc hm hpre,
   GetMethod_parent c name, GetMethod_none_iff c name⟩

/-- C2 at `class C(P)`: `m`, defined by both, resolves to `C.m`; `k`, defined
by `P` only, resolves to `P.k`. -/
theorem C2_GetMethod_resolution_witness :
    class_C.GetMethod "m" = some C_m ∧ class_C.GetMethod "k" = some P_k :=
  ⟨(C2_GetMethod_resolution class_C "m").1 [] C_m [] rfl rfl (by simp),
   ((C2_GetMethod_resolution class_C "k").2.1 (by
      intro m hm
      have : m = C_m := by simpa [class_C, Class.methods_] using hm
      subst this
      decide)).trans
    ((C2_GetMethod_resolution class_P "k").1 [P_m] P_k [] rfl rfl (by
      intro x hx
      have : x = P_m := by simpa using hx
      subst this
      decide))⟩

/-- C3: `ClassInstance::Call` raises the dispatch error, whatever the executor
and with the state untouched, exactly when `HasMethod(name, |args|)` is false,
that is when `GetMethod(name)` is absent or the one method it resolves has
another parameter count; otherwise it executes the body of that method in the
call closure. A first own method of that name with another arity therefore
makes the call fail, whatever follows it in the table or stands in the parent
chain. -/
theorem C3_Call_dispatch (ex : Executor) (this : Nat) (method : String)
    (actual_args : List ObjectHolder) (w : World) (self : ClassInstance)
    (h : w.heap[this]? = some self) :
    (self.HasMethod method actual_args.length = true ↔
      ∃ m, self.class_.GetMethod method = some m ∧
        m.formal_params.length = actual_args.length) ∧
    (self.HasMethod method actual_args.length = false →
      ClassInstance.Call ex this method actual_args w =
        (.error (.runtime_error "ERROR:Такого метода не существует"), w)) ∧
    (∀ m, self.class_.GetMethod method = some m →
      m.formal_params.length = actual_args.length →
      ClassInstance.Call ex this method actual_args w =
        ((ex m.body (ClassInstance.CallClosure this m.formal_params actual_args) w).1,
         (ex m.body (ClassInstance.CallClosure this m.formal_params actual_args) w).2.2)) ∧
    (∀ pre m post, self.class_.methods_ = pre ++ m :: post → m.name = method →
      (∀ x ∈ pre, x.name ≠ method) → m.formal_params.length ≠ actual_args.length →
      ClassInstance.Call ex this method actual_args w =
        (.error (.runtime_error "ERROR:Такого метода не существует"), w)) := by
  refine ⟨HasMethod_iff self method _, Call_no_method ex this method actual_args w self h,
    fun m hm ha => Call_method ex this method actual_args w self h m hm ha, ?_⟩
  intro pre m post hc hm hpre hne
  apply Call_no_method ex this method actual_args w self h
  have hg := GetMethod_first self.class_ method pre m post hc hm hpre
  cases hb : self.HasMethod method actual_args.length with
  | false => rfl
  | true =>
    obtain ⟨m', hm', ha'⟩ := (HasMethod_iff self method _).mp hb
    rw [hg] at hm'
    cases hm'
    exact absurd ha' hne

/-- C3 on an instance of `class D(P)`, where `D.k(a)` hides `P.k(a, b)`:
calling `k` with the parent's two arguments fails and leaves the state as it
was; on an instance of `class X` with `f(a)` then `f(a, b)` the call with one
argument runs the body of the first `f`. -/
theorem C3_Call_dispatch_witness :
    ClassInstance.Call (Execute 5) 0 "k" [.Number 1, .Number 2] ⟨[⟨class_D, []⟩], "out"⟩ =
      (.error (.runtime_error "ERROR:Такого метода не существует"), ⟨[⟨class_D, []⟩], "out"⟩) ∧
    ClassInstance.Call (Execute 5) 0 "f" [.Number 1] ⟨[⟨class_X, []⟩], ""⟩ =
      ((Execute 5 X_f1.body (ClassInstance.CallClosure 0 ["a"] [.Number 1])
          ⟨[⟨class_X, []⟩], ""⟩).1,
       (Execute 5 X_f1.body (ClassInstance.CallClosure 0 ["a"] [.Number 1])
          ⟨[⟨class_X, []⟩], ""⟩).2.2) :=
  ⟨(C3_Call_dispatch (Execute 5) 0 "k" [.Number 1, .Number 2] ⟨[⟨class_D, []⟩], "out"⟩
      ⟨class_D, []⟩ rfl).2.2.2 [] C_k [] rfl rfl (by simp) (by decide),
   (C3_Call_dispatch (Execute 5) 0 "f" [.Number 1] ⟨[⟨class_X, []⟩], ""⟩
      ⟨class_X, []⟩ rfl).2.2.1 X_f1 rfl rfl⟩

/-- C4: on the class of `TestMethodOverloading` (`f(a)` then `f(a, b)`) the two
programs do not have the same error status: `x.f(1)` completes, having printed
from the first `f`, and `x.f(1, 2)` raises the dispatch error. -/
theorem C4_overloading_error_status_differs :
    (Execute 10 overloading_input1 [] World.empty).1 = .ok .None ∧
    (Execute 10 overloading_input1 [] World.empty).2.2.output = "one parameter overload\n" ∧
    (Execute 10 overloading_input2 [] World.empty).1 =
      .error (.runtime_error "ERROR:Такого метода не существует") ∧
    (Execute 10 overloading_input2 [] World.empty).2.2.output = "" :=
  ⟨rfl, rfl, rfl, rfl⟩

/-- C5 fails for a formal parameter named `self`: calling `get(self)`, which
returns `self`, on the instance at address 0 with the argument 7 returns 7, not
the receiver. -/
theorem C5_self_parameter_counterexample :
    ClassInstance.Call (Execute 5) 0 "get" [.Number 7] ⟨[⟨class_S, []⟩], ""⟩ =
      (.ok (.Number 7), ⟨[⟨class_S, []⟩], ""⟩) ∧
    Closure.find (ClassInstance.CallClosure 0 ["self"] [.Number 7]) "self" = some (.Number 7) ∧
    ObjectHolder.Number 7 ≠ ObjectHolder.ClassInstance 0 :=
  ⟨rfl, rfl, by intro h; cases h⟩

/-- C5, amended: for a method none of whose formal parameters is named `self`,
the closure in which `ClassInstance::Call` executes the body binds `self` to
the receiver, whatever the actual arguments. -/
theorem C5_self_bound_to_receiver (this : Nat) (method : String)
    (actual_args : List ObjectHolder) (w : World) (self : ClassInstance) (m : Method)
    (h : w.heap[this]? = some self)
    (hm : self.class_.GetMethod method = some m)
    (ha : m.formal_params.length = actual_args.length)
    (hself : "self" ∉ m.formal_params) :
    ∃ closure : Closure,
      Closure.find closure "self" = some (.ClassInstance this) ∧
      ∀ ex : Executor, ClassInstance.Call ex this method actual_args w =
        ((ex m.body closure w).1, (ex m.body closure w).2.2) :=
  ⟨ClassInstance.CallClosure this m.formal_params actual_args,
   CallClosure_self this m.formal_params actual_args hself,
   fun ex => Call_method ex this method actual_args w self h m hm ha⟩

/-- C5 amended, on `k(a, b)` of `class P` called on the instance at address 0. -/
theorem C5_self_bound_to_receiver_witness :
    ∃ closure : Closure,
      Closure.find closure "self" = some (.ClassInstance 0) ∧
      ∀ ex : Executor,
        ClassInstance.Call ex 0 "k" [.Number 1, .None] ⟨[⟨class_P, []⟩], ""⟩ =
          ((ex P_k.body closure ⟨[⟨class_P, []⟩], ""⟩).1,
           (ex P_k.body closure ⟨[⟨class_P, []⟩], ""⟩).2.2) :=
  C5_self_bound_to_receiver 0 "k" [.Number 1, .None] ⟨[⟨class_P, []⟩], ""⟩
    ⟨class_P, []⟩ P_k rfl rfl rfl (by decide)

/-- C6: on two Numbers, two Strings or two Bools the six comparison predicates
succeed, leave the state as it is, and agree with the order of the values:
`Equal` iff `a = b`, `Less` iff `a < b`, `NotEqual` iff `a ≠ b`, `Greater` iff
`a > b`, `LessOrEqual` iff `a ≤ b`, `GreaterOrEqual` iff `a ≥ b`; so exactly one
of `Less`, `Equal`, `Greater` holds. -/
theorem C6_same_kind_comparisons (ex : Executor) (w : World) :
    (∀ a b : Int,
      Equal ex (.Number a) (.Number b) w = (.ok (decide (a = b)), w) ∧
      Less ex (.Number a) (.Number b) w = (.ok (decide (a < b)), w) ∧
      NotEqual ex (.Number a) (.Number b) w = (.ok (decide (a ≠ b)), w) ∧
      Greater ex (.Number a) (.Number b) w = (.ok (decide (a > b)), w) ∧
      LessOrEqual ex (.Number a) (.Number b) w = (.ok (decide (a ≤ b)), w) ∧
      GreaterOrEqual ex (.Number a) (.Number b) w = (.ok (decide (a ≥ b)), w)) ∧
    (∀ a b : String,
      Equal ex (.String a) (.String b) w = (.ok (decide (a = b)), w) ∧
      Less ex (.String a) (.String b) w = (.ok (decide (a < b)), w) ∧
      NotEqual ex (.String a) (.String b) w = (.ok (decide (a ≠ b)), w) ∧
      Greater ex (.String a) (.String b) w = (.ok (decide (a > b)), w) ∧
      LessOrEqual ex (.String a) (.String b) w = (.ok (decide (a ≤ b)), w) ∧
      GreaterOrEqual ex (.String a) (.String b) w = (.ok (decide (a ≥ b)), w)) ∧
    (∀ a b : Bool,
      Equal ex (.Bool a) (.Bool b) w = (.ok (decide (a = b)), w) ∧
      Less ex (.Bool a) (.Bool b) w = (.ok (decide (a < b)), w) ∧
      NotEqual ex (.Bool a) (.Bool b) w = (.ok (decide (a ≠ b)), w) ∧
      Greater ex (.Bool a) (.Bool b) w = (.ok (decide (a > b)), w) ∧
      LessOrEqual ex (.Bool a) (.Bool b) w = (.ok (decide (a ≤ b)), w) ∧
      GreaterOrEqual ex (.Bool a) (.Bool b) w = (.ok (decide (a ≥ b)), w)) ∧
    (∀ lhs rhs : ObjectHolder, samePrimitiveKind lhs rhs = true →
      ∃ lt eq gt : Bool,
        Less ex lhs rhs w = (.ok lt, w) ∧ Equal ex lhs rhs w = (.ok eq, w) ∧
        Greater ex lhs rhs w = (.ok gt, w) ∧
        ((lt && !eq && !gt) || (!lt && eq && !gt) || (!lt && !eq && gt)) = true) := by
  have hS : ∀ a b : String, Less ex (.String a) (.String b) w = (.ok (decide (a < b)), w) :=
    fun a b => by simp only [Less, std_string_less_eq]
  refine ⟨fun a b => compare_by_value a b ex _ _ w rfl rfl,
    fun a b => compare_by_value a b ex _ _ w (hS a b) rfl,
    fun a b => compare_by_value a b ex _ _ w rfl rfl, ?_⟩
  intro lhs rhs hk
  cases lhs <;> cases rhs <;> simp only [samePrimitiveKind, Bool.false_eq_true] at hk
  case Number.Number a b =>
    refine ⟨decide (a < b), decide (a = b), decide (a > b), rfl, rfl, ?_, ?_⟩
    · exact greater_by_value a b ex (.Number a) (.Number b) w rfl rfl
    · exact exactly_one_bools a b
  case String.String a b =>
    refine ⟨decide (a < b), decide (a = b), decide (a > b), hS a b, rfl, ?_, ?_⟩
    · exact greater_by_value a b ex (.String a) (.String b) w (hS a b) rfl
    · exact exactly_one_bools a b
  case Bool.Bool a b =>
    refine ⟨decide (a < b), decide (a = b), decide (a > b), rfl, rfl, ?_, ?_⟩
    · exact greater_by_value a b ex (.Bool a) (.Bool b) w rfl rfl
    · exact exactly_one_bools a b

/-- C6 on the Numbers 2 and 3 and the Bools false and true. -/
theorem C6_same_kind_comparisons_witness :
    Less (Execute 0) (.Number 2) (.Number 3) World.empty = (.ok true, World.empty) ∧
    GreaterOrEqual (Execute 0) (.Bool false) (.Bool true) World.empty
      = (.ok false, World.empty) ∧
    ∃ lt eq gt : Bool,
      Less (Execute 0) (.Number 2) (.Number 3) World.empty = (.ok lt, World.empty) ∧
      Equal (Execute 0) (.Number 2) (.Number 3) World.empty = (.ok eq, World.empty) ∧
      Greater (Execute 0) (.Number 2) (.Number 3) World.empty = (.ok gt, World.empty) ∧
      ((lt && !eq && !gt) || (!lt && eq && !gt) || (!lt && !eq && gt)) = true :=
  ⟨((C6_same_kind_comparisons (Execute 0) World.empty).1 2 3).2.1,
   ((C6_same_kind_comparisons (Execute 0) World.empty).2.2.1 false true).2.2.2.2.2,
   (C6_same_kind_comparisons (Execute 0) World.empty).2.2.2 (.Number 2) (.Number 3) rfl⟩

/-- C7: when the left operand is not a ClassInstance, `Equal` returns a Boolean
exactly when both operands are Numbers, both Strings, both Bools, or both the
empty handle (then it is true), and `Less` exactly when both are Numbers, both
Strings or both Bools; in every other case the predicate raises a runtime
error; the state is not touched. -/
theorem C7_comparable_kinds (ex : Executor) (lhs rhs : ObjectHolder) (w : World)
    (hlhs : ∀ address, lhs ≠ .ClassInstance address) :
    ((∃ b, Equal ex lhs rhs w = (.ok b, w)) ↔
      (samePrimitiveKind lhs rhs = true ∨ bothNone lhs rhs = true)) ∧
    (bothNone lhs rhs = true → Equal ex lhs rhs w = (.ok true, w)) ∧
    ((samePrimitiveKind lhs rhs = false ∧ bothNone lhs rhs = false) →
      Equal ex lhs rhs w =
        (.error (.runtime_error "ERROR:These objects cannot be compared"), w)) ∧
    ((∃ b, Less ex lhs rhs w = (.ok b, w)) ↔ samePrimitiveKind lhs rhs = true) ∧
    (samePrimitiveKind lhs rhs = false →
      Less ex lhs rhs w =
        (.error (.runtime_error "ERROR:These objects cannot be compared by less"), w)) := by
  cases lhs with
  | ClassInstance address => exact absurd rfl (hlhs address)
  | None => cases rhs <;> simp [Equal, Less, samePrimitiveKind, bothNone]
  | Number a => cases rhs <;> simp [Equal, Less, samePrimitiveKind, bothNone]
  | String a => cases rhs <;> simp [Equal, Less, samePrimitiveKind, bothNone]
  | Bool a => cases rhs <;> simp [Equal, Less, samePrimitiveKind, bothNone]
  | Class c => cases rhs <;> simp [Equal, Less, samePrimitiveKind, bothNone]

/-- C7 on a Number against a String, on two empty handles, and on a Class
operand. -/
theorem C7_comparable_kinds_witness :
    Equal (Execute 0) (.Number 1) (.String "1") World.empty =
      (.error (.runtime_error "ERROR:These objects cannot be compared"), World.empty) ∧
    Equal (Execute 0) .None .None World.empty = (.ok true, World.empty) ∧
    Less (Execute 0) .None .None World.empty =
      (.error (.runtime_error "ERROR:These objects cannot be compared by less"), World.empty) ∧
    Less (Execute 0) (.Class class_P) (.Class class_P) World.empty =
      (.error (.runtime_error "ERROR:These objects cannot be compared by less"), World.empty) :=
  ⟨(C7_comparable_kinds (Execute 0) (.Number 1) (.String "1") World.empty
      (fun _ h => by cases h)).2.2.1 ⟨rfl, rfl⟩,
   (C7_comparable_kinds (Execute 0) .None .None World.empty
      (fun _ h => by cases h)).2.1 rfl,
   (C7_comparable_kinds (Execute 0) .None .None World.empty
      (fun _ h => by cases h)).2.2.2.2 rfl,
   (C7_comparable_kinds (Execute 0) (.Class class_P) (.Class class_P) World.empty
      (fun _ h => by cases h)).2.2.2.2 rfl⟩

/-! ## Lemmas on `Print` -/

theorem join_foldl (acc : String) (l : List String) :
    l.foldl (fun r s => r ++ s) acc = acc ++ l.foldl (fun r s => r ++ s) "" := by
  induction l generalizing acc with
  | nil => simp
  | cons a l ih =>
    simp only [List.foldl_cons]
    rw [ih (acc ++ a), ih ("" ++ a)]
    simp [String.append_assoc]

theorem join_cons (a : String) (l : List String) :
    String.join (a :: l) = a ++ String.join l := by
  simp only [String.join, List.foldl_cons]
  rw [join_foldl]
  simp

theorem intercalate_go (acc s : String) (ts : List String) :
    String.intercalate.go acc s ts = acc ++ String.join (ts.map (fun t => s ++ t)) := by
  induction ts generalizing acc with
  | nil => simp [String.intercalate.go, String.join]
  | cons t ts ih =>
    simp only [String.intercalate.go, ih, List.map_cons, join_cons, String.append_assoc]

theorem intercalate_cons (s t : String) (ts : List String) :
    s.intercalate (t :: ts) = t ++ String.join (ts.map (fun u => s ++ u)) := by
  simp only [String.intercalate, intercalate_go]

theorem Print_loop_rest (ex : Executor) (ip : Nat → World → Result String)
    (args : List Statement) (closure c2 : Closure) (heap h3 : List ClassInstance)
    (texts : List String) (hq : QuietArgs ex ip args closure heap texts c2 h3) :
    ∀ out, Print.loop ex ip false false args closure ⟨heap, out⟩ =
      (.ok (), c2, ⟨h3, out ++ String.join (texts.map (fun t => " " ++ t))⟩) := by
  induction hq with
  | nil closure heap => intro out; simp [Print.loop, String.join]
  | cons arg rest closure c1 c2 heap h1 h2 h3 value text texts hexec hprint hrest ih =>
    intro out
    simp only [Print.loop, hexec, Bool.not_false, if_true, World.write, hprint,
      Bool.false_eq_true, if_false, ih, List.map_cons, join_cons, String.append_assoc]

theorem Print_quiet (fuel : Nat) (args : List Statement) (closure c2 : Closure)
    (heap h3 : List ClassInstance) (texts : List String)
    (hq : QuietArgs (Execute fuel) (ClassInstance.Print (Execute fuel) fuel)
      args closure heap texts c2 h3) (out : String) :
    Execute (fuel + 1) (.Print args) closure ⟨heap, out⟩ =
      (.ok .None, c2, ⟨h3, out ++ " ".intercalate texts ++ "\n"⟩) := by
  cases hq with
  | nil => simp [Execute, Print.loop, World.write, String.intercalate]
  | cons arg rest _ c1 _ _ h1 h2 _ value text texts hexec hprint hrest =>
    cases hrest with
    | nil =>
      simp [Execute, Print.loop, World.write, hexec, hprint, String.intercalate,
        String.intercalate.go]
    | cons arg2 rest2 _ c1b _ _ h1b h2b _ value2 text2 texts2 hexec2 hprint2 hrest2 =>
      have hl := Print_loop_rest (Execute fuel) (ClassInstance.Print (Execute fuel) fuel)
        (arg2 :: rest2) c1 c2 h2 h3 (text2 :: texts2)
        (QuietArgs.cons arg2 rest2 c1 c1b c2 h2 h1b h2b h3 value2 text2 texts2
          hexec2 hprint2 hrest2)
      have hs : ((arg :: arg2 :: rest2).length == 1) = false := by simp
      simp only [Execute, hs]
      rw [Print.loop]
      simp only [hexec, Bool.not_true, Bool.false_eq_true, if_false, hprint, World.write, hl,
        intercalate_cons, String.append_assoc]


/-! ## Lemmas on decimal text -/

theorem digitChar_toNat (m : Nat) (h : m < 10) : (Nat.digitChar m).toNat - '0'.toNat = m := by
  interval_cases m <;> rfl

theorem digitChar_isDigit (m : Nat) (h : m < 10) : (Nat.digitChar m).isDigit = true := by
  interval_cases m <;> rfl

theorem toDigitsCore_value (fuel : Nat) : ∀ (n : Nat) (ds : List Char), n < fuel →
    decimalValue (Nat.toDigitsCore 10 fuel n ds) 0 = decimalValue ds n := by
  induction fuel with
  | zero => intro n ds h; omega
  | succ k ih =>
    intro n ds h
    have hd : n % 10 < 10 := Nat.mod_lt _ (by decide)
    simp only [Nat.toDigitsCore]
    split
    · rename_i h0
      simp only [decimalValue, List.foldl_cons, digitChar_toNat _ hd]
      congr 1
      omega
    · rename_i h0
      rw [ih (n / 10) _ (by omega)]
      simp only [decimalValue, List.foldl_cons, digitChar_toNat _ hd]
      congr 1
      omega

theorem toDigitsCore_all (fuel : Nat) : ∀ (n : Nat) (ds : List Char),
    ds.all Char.isDigit = true → (Nat.toDigitsCore 10 fuel n ds).all Char.isDigit = true := by
  induction fuel with
  | zero => intro n ds h; simpa [Nat.toDigitsCore] using h
  | succ k ih =>
    intro n ds h
    have hd : n % 10 < 10 := Nat.mod_lt _ (by decide)
    have hc : (Nat.digitChar (n % 10) :: ds).all Char.isDigit = true := by
      simp only [List.all_cons, digitChar_isDigit _ hd, h, Bool.and_self]
    simp only [Nat.toDigitsCore]
    split
    · exact hc
    · exact ih _ _ hc

theorem toDigitsCore_ne_nil (fuel : Nat) : ∀ (n : Nat) (ds : List Char),
    ds ≠ [] → Nat.toDigitsCore 10 fuel n ds ≠ [] := by
  induction fuel with
  | zero => intro n ds h; simpa [Nat.toDigitsCore] using h
  | succ k ih =>
    intro n ds h
    simp only [Nat.toDigitsCore]
    split
    · simp
    · exact ih _ _ (by simp)

theorem toDigits_ne_nil (n : Nat) : Nat.toDigits 10 n ≠ [] := by
  simp only [Nat.toDigits, Nat.toDigitsCore]
  split
  · simp
  · exact toDigitsCore_ne_nil _ _ _ (by simp)

theorem toDigits_all (n : Nat) : (Nat.toDigits 10 n).all Char.isDigit = true :=
  toDigitsCore_all _ _ _ rfl

theorem toDigits_value (n : Nat) : decimalValue (Nat.toDigits 10 n) 0 = n := by
  simp only [Nat.toDigits]
  rw [toDigitsCore_value _ _ _ (Nat.lt_succ_self n)]
  rfl

theorem toNat_repr (n : Nat) : (Nat.repr n).toNat? = some n := by
  have h1 := toDigits_ne_nil n
  have h2 := toDigits_all n
  have h3 := toDigits_value n
  simp only [String.toNat?, String.isNat, Nat.repr, String.foldl_eq, String.all_eq,
    List.asString]
  have he : (String.mk (Nat.toDigits 10 n)).isEmpty = false := by
    cases hb : (String.mk (Nat.toDigits 10 n)).isEmpty with
    | false => rfl
    | true =>
      have hemp := (String.isEmpty_iff _).mp hb
      exact absurd (congrArg String.data hemp) h1
  simp only [he, h2, Bool.not_false, Bool.and_self, if_true]
  exact congrArg some h3

theorem toDigits_head_isDigit (n : Nat) :
    ∃ c cs, Nat.toDigits 10 n = c :: cs ∧ c.isDigit = true := by
  have h1 := toDigits_ne_nil n
  have h2 := toDigits_all n
  cases hl : Nat.toDigits 10 n with
  | nil => exact absurd hl h1
  | cons c cs =>
    rw [hl] at h2
    simp only [List.all_cons, Bool.and_eq_true] at h2
    exact ⟨c, cs, rfl, h2.1⟩

theorem get_zero_cons (c : Char) (cs : List Char) : (String.mk (c :: cs)).get 0 = c := by
  simp [String.get, String.utf8GetAux]

/-- The decimal text of an integer parses back to it. -/
theorem toInt_toString (n : Int) : (toString n).toInt? = some n := by
  cases n with
  | ofNat m =>
    show (Nat.repr m).toInt? = some (Int.ofNat m)
    obtain ⟨c, cs, hl, hc⟩ := toDigits_head_isDigit m
    have hget : (Nat.repr m).get 0 ≠ '-' := by
      simp only [Nat.repr, List.asString, hl, get_zero_cons]
      intro h; subst h; simp [Char.isDigit] at hc
    simp only [String.toInt?, hget, if_false, toNat_repr]
    rfl
  | negSucc m =>
    show ("-" ++ Nat.repr (m + 1)).toInt? = some (Int.negSucc m)
    have hs : "-" ++ Nat.repr (m + 1) = String.mk ('-' :: Nat.toDigits 10 (m + 1)) := rfl
    have hv : Substring.ValidFor ['-'] (Nat.toDigits 10 (m + 1)) []
        (("-" ++ Nat.repr (m + 1)).toSubstring.drop 1) := by
      have hd := (String.validFor_toSubstring ("-" ++ Nat.repr (m + 1))).drop 1
      simpa [hs] using hd
    have hnat : (("-" ++ Nat.repr (m + 1)).toSubstring.drop 1).toNat? = some (m + 1) := by
      simp only [Substring.toNat?, Substring.isNat, hv.all, hv.foldl, toDigits_all, if_true]
      exact congrArg some (toDigits_value (m + 1))
    have hget : ("-" ++ Nat.repr (m + 1)).get 0 = '-' := by
      rw [hs, get_zero_cons]
    simp only [String.toInt?, hget, if_true, hnat]
    rfl

/-- `Stringify` and `Print` write the same text for every value that is not a
class. -/
theorem Stringify_apply_eq_text (ip : Nat → World → Result String) (value : ObjectHolder)
    (w : World) (hv : ∀ cls, value ≠ .Class cls) :
    Stringify.apply ip value w =
      match Print.text ip value w with
      | (.error e, w1) => (.error e, w1)
      | (.ok text, w1) => (.ok (.String text), w1) := by
  cases value with
  | Class cls => exact absurd rfl (hv cls)
  | None => rfl
  | Number n => rfl
  | String s => rfl
  | Bool b => rfl
  | ClassInstance address =>
    simp only [Stringify.apply, Print.text, Object.Print]

/-! ## Claims on `Print` and `Stringify` -/

/-- C8 fails when an argument itself writes: in `print 1, x.g()`, where `g`
prints `b` and returns 2, both arguments evaluate without error, to 1 and 2,
and `Print` returns none, yet what is appended is not `1 2` and a newline: the
output of `g` stands between the text of 1 and the separator. -/
theorem C8_argument_output_counterexample :
    (ExecuteArgs (Execute 9) print_args_with_output
      [("x", .ClassInstance 0)] ⟨[⟨class_G, []⟩], ""⟩).1 = .ok [.Number 1, .Number 2] ∧
    (Execute 10 (.Print print_args_with_output)
      [("x", .ClassInstance 0)] ⟨[⟨class_G, []⟩], ""⟩).1 = .ok .None ∧
    (Execute 10 (.Print print_args_with_output)
      [("x", .ClassInstance 0)] ⟨[⟨class_G, []⟩], ""⟩).2.2.output = "1b\n 2\n" ∧
    "1b\n 2\n" ≠ "" ++ " ".intercalate ["1", "2"] ++ "\n" :=
  ⟨rfl, rfl, rfl, by decide⟩

/-- C8, amended: for every argument list whose arguments evaluate, in order,
without error and without writing to the output, to values whose printing
writes nothing but their printed forms `texts`, `Print` appends to the output
exactly the printed forms joined by single spaces and followed by one newline,
and returns none, with the closure and the instances as the arguments left
them. The empty `Print` therefore appends just the newline, and the printed form
of the empty handle is `None`. -/
theorem C8_Print_quiet_arguments (fuel : Nat) (args : List Statement) (closure c2 : Closure)
    (heap h3 : List ClassInstance) (texts : List String)
    (hq : QuietArgs (Execute fuel) (ClassInstance.Print (Execute fuel) fuel)
      args closure heap texts c2 h3) (out : String) :
    Execute (fuel + 1) (.Print args) closure ⟨heap, out⟩ =
      (.ok .None, c2, ⟨h3, out ++ " ".intercalate texts ++ "\n"⟩) ∧
    Execute (fuel + 1) (.Print []) closure ⟨heap, out⟩ =
      (.ok .None, closure, ⟨heap, out ++ "\n"⟩) ∧
    (∀ ip w, Print.text ip .None w = (.ok "None", w)) :=
  ⟨Print_quiet fuel args closure c2 heap h3 texts hq out, rfl, fun _ _ => rfl⟩

/-- C8 amended, on `print 10, 24, -8` and on `print None` of `TestSimplePrints`. -/
theorem C8_Print_quiet_arguments_witness :
    Execute 2 (.Print [.NumericConst 10, .NumericConst 24, .NumericConst (-8)]) [] ⟨[], "57\n"⟩ =
      (.ok .None, [], ⟨[], "57\n10 24 -8\n"⟩) ∧
    Execute 2 (.Print [.None]) [] ⟨[], ""⟩ = (.ok .None, [], ⟨[], "None\n"⟩) :=
  ⟨(C8_Print_quiet_arguments 1 [.NumericConst 10, .NumericConst 24, .NumericConst (-8)]
      [] [] [] [] ["10", "24", "-8"]
      (.cons _ _ [] [] [] [] [] [] [] (.Number 10) "10" _ (fun _ => rfl) (fun _ => rfl)
        (.cons _ _ [] [] [] [] [] [] [] (.Number 24) "24" _ (fun _ => rfl) (fun _ => rfl)
          (.cons _ _ [] [] [] [] [] [] [] (.Number (-8)) "-8" _ (fun _ => rfl) (fun _ => rfl)
            (.nil [] [])))) "57\n").1,
   (C8_Print_quiet_arguments 1 [.None] [] [] [] [] ["None"]
      (.cons _ _ [] [] [] [] [] [] [] .None "None" _ (fun _ => rfl) (fun _ => rfl)
        (.nil [] [])) "").1⟩

/-- C9: for a Class value `Stringify` does not return the printed form: with
`P` bound to the class `P`, `str(P)` is the String `None`, while `print P`
writes `Class P`. -/
theorem C9_Stringify_of_class_is_None :
    Execute 5 (.Stringify (.VariableValue ["P"])) [("P", .Class class_P)] World.empty =
      (.ok (.String "None"), [("P", .Class class_P)], World.empty) ∧
    (Execute 5 (.Print [.VariableValue ["P"]]) [("P", .Class class_P)] World.empty).2.2.output =
      "Class P\n" :=
  ⟨rfl, rfl⟩

/-- C10: `Stringify` of an expression that evaluates to the Number `n` returns
a String whose text, parsed as a signed decimal literal, is `n` again, for
every integer `n`. -/
theorem C10_Stringify_number_round_trip (fuel : Nat) (arg : Statement)
    (closure c1 : Closure) (w w1 : World) (n : Int)
    (h : Execute fuel arg closure w = (.ok (.Number n), c1, w1)) :
    ∃ text : String,
      Execute (fuel + 1) (.Stringify arg) closure w = (.ok (.String text), c1, w1) ∧
      text.toInt? = some n :=
  ⟨Number.Print n, by simp only [Execute, h, Stringify.apply], toInt_toString n⟩

/-- C10 on `str(-8)`. -/
theorem C10_Stringify_number_round_trip_witness :
    ∃ text : String,
      Execute 2 (.Stringify (.NumericConst (-8))) [] World.empty =
        (.ok (.String text), [], World.empty) ∧
      text.toInt? = some (-8) :=
  C10_Stringify_number_round_trip 1 (.NumericConst (-8)) [] [] World.empty World.empty (-8) rfl

/-! ## Lemmas on the arithmetic nodes -/

theorem wrapInt_of_fits (x : Int) (h : fitsInt x) : wrapInt x = x := by
  unfold fitsInt at h
  unfold wrapInt
  omega

theorem Execute_Add (fuel : Nat) (lhs rhs : Statement) (closure c1 c2 : Closure)
    (w w1 w2 : World) (lhs_arg rhs_arg : ObjectHolder)
    (hl : Execute fuel lhs closure w = (.ok lhs_arg, c1, w1))
    (hr : Execute fuel rhs c1 w1 = (.ok rhs_arg, c2, w2)) :
    Execute (fuel + 1) (.Add lhs rhs) closure w =
      ((Add.apply (Execute fuel) lhs_arg rhs_arg w2).1, c2,
       (Add.apply (Execute fuel) lhs_arg rhs_arg w2).2) := by
  simp only [Execute, hl, hr]

theorem Execute_numeric (ex : Executor)
    (op : Except Unwind Int → Int → Except Unwind ObjectHolder)
    (lhs rhs : Statement) (closure c1 c2 : Closure)
    (w w1 w2 : World) (lhs_arg rhs_arg : ObjectHolder)
    (hl : ex lhs closure w = (.ok lhs_arg, c1, w1))
    (hr : ex rhs c1 w1 = (.ok rhs_arg, c2, w2)) :
    (∀ a b, lhs_arg = .Number a → rhs_arg = .Number b →
      ExecuteNumeric ex op lhs rhs closure w =
        (op (if rhs.isInert then .ok a else (HandleLifetime ex lhs closure w).read a) b,
          c2, w2)) ∧
    ((∀ a b, ¬ (lhs_arg = .Number a ∧ rhs_arg = .Number b)) →
      ExecuteNumeric ex op lhs rhs closure w =
        (.error (.runtime_error "ERROR: Incorrect operation"), c2, w2)) := by
  constructor
  · intro a b ha hb
    subst ha; subst hb
    simp only [ExecuteNumeric, hl, hr]
  · intro hne
    simp only [ExecuteNumeric, hl, hr]
    cases lhs_arg <;> cases rhs_arg <;> first | rfl | exact absurd ⟨rfl, rfl⟩ (hne _ _)

/-! ## Lemmas on paths and fields -/

theorem heap_setField_other (w : World) (a b : Nat) (f : String) (v : ObjectHolder)
    (hne : b ≠ a) :
    (w.setField a f v).heap[b]? = w.heap[b]? := by
  unfold World.setField
  rcases h : w.heap[a]? with _ | inst
  · rfl
  · simp [List.getElem?_set, Ne.symm hne]

theorem Fields_setField_other (w : World) (a b : Nat) (f : String) (v : ObjectHolder)
    (hne : b ≠ a) :
    (w.setField a f v).Fields b = w.Fields b := by
  simp only [World.Fields, heap_setField_other w a b f v hne]

theorem setField_length (w : World) (a : Nat) (f : String) (v : ObjectHolder) :
    (w.setField a f v).heap.length = w.heap.length := by
  unfold World.setField
  rcases h : w.heap[a]? with _ | inst
  · rfl
  · simp

/-! ## Claims on the evaluator -/

/-- C11: `Sub`, `Mult` and `Div` do not compute the reference arithmetic on
every pair of Number operands. They keep only the raw pointers
`TryAs<Number>()` of the handles their operands returned, and a left operand
that is itself computed is destroyed before it is read: `(1 + 2) * (3 + 4)`,
`(2 + 3) - (1 + 2)` and `(10 + 10) / (2 + 3)` are a use after free, not 21, 2
and 4. `Add`, which keeps both handles, returns 10 for `(1 + 2) + (3 + 4)`, and
on operands that variables hold the three nodes return the reference result. -/
theorem C11_computed_left_operand_is_freed :
    Execute 3 product_of_sums [] World.empty = (.error .undefined, [], World.empty) ∧
    Execute 3 difference_of_sums [] World.empty = (.error .undefined, [], World.empty) ∧
    Execute 3 quotient_of_sums [] World.empty = (.error .undefined, [], World.empty) ∧
    Execute 3 sum_of_sums [] World.empty = (.ok (.Number 10), [], World.empty) ∧
    Execute 2 (.Mult (.VariableValue ["x"]) (.VariableValue ["y"]))
        [("x", .Number 3), ("y", .Number 7)] World.empty =
      (.ok (.Number 21), [("x", .Number 3), ("y", .Number 7)], World.empty) ∧
    Execute 2 (.Sub (.VariableValue ["x"]) (.VariableValue ["y"]))
        [("x", .Number 5), ("y", .Number 3)] World.empty =
      (.ok (.Number 2), [("x", .Number 5), ("y", .Number 3)], World.empty) ∧
    Execute 2 (.Div (.VariableValue ["x"]) (.VariableValue ["y"]))
        [("x", .Number 20), ("y", .Number 5)] World.empty =
      (.ok (.Number 4), [("x", .Number 20), ("y", .Number 5)], World.empty) :=
  ⟨rfl, rfl, rfl, rfl, rfl, rfl, rfl⟩

/-- C12: on two Number operands `Div` raises a runtime error iff the divisor is
0, and the error is then the division error, in the state the operands left;
with a right operand that evaluates to the Number 0 `Div` raises a runtime
error whatever the left operand evaluates to. -/
theorem C12_Div_zero_divisor (fuel : Nat) (lhs rhs : Statement) (closure c1 c2 : Closure)
    (w w1 w2 : World) (lhs_arg rhs_arg : ObjectHolder)
    (hl : Execute fuel lhs closure w = (.ok lhs_arg, c1, w1))
    (hr : Execute fuel rhs c1 w1 = (.ok rhs_arg, c2, w2)) :
    (∀ a b, lhs_arg = .Number a → rhs_arg = .Number b →
      ((∃ what c' w', Execute (fuel + 1) (.Div lhs rhs) closure w =
          (.error (.runtime_error what), c', w')) ↔ b = 0) ∧
      (b = 0 → Execute (fuel + 1) (.Div lhs rhs) closure w =
          (.error (.runtime_error "ERROR: division by 0"), c2, w2))) ∧
    (rhs_arg = .Number 0 →
      ∃ what, Execute (fuel + 1) (.Div lhs rhs) closure w =
        (.error (.runtime_error what), c2, w2)) := by
  have hnum := Execute_numeric (Execute fuel)
    (fun a b =>
      if b = 0 then .error (.runtime_error "ERROR: division by 0")
      else a.bind (fun a =>
        if a = -2147483648 ∧ b = -1 then .error .undefined
        else .ok (.Number (wrapInt (Int.tdiv a b)))))
    lhs rhs closure c1 c2 w w1 w2 lhs_arg rhs_arg hl hr
  have hdiv : ∀ a b, lhs_arg = .Number a → rhs_arg = .Number b →
      Execute (fuel + 1) (.Div lhs rhs) closure w =
        ((if b = 0 then .error (.runtime_error "ERROR: division by 0")
          else (if rhs.isInert then Except.ok a
              else (HandleLifetime (Execute fuel) lhs closure w).read a).bind (fun a =>
            if a = -2147483648 ∧ b = -1 then .error .undefined
            else .ok (.Number (wrapInt (Int.tdiv a b))))), c2, w2) := by
    intro a b ha hb
    simp only [Execute]
    exact hnum.1 a b ha hb
  constructor
  · intro a b ha hb
    have h0 : b = 0 → Execute (fuel + 1) (.Div lhs rhs) closure w =
        (.error (.runtime_error "ERROR: division by 0"), c2, w2) := by
      intro hb0; rw [hdiv a b ha hb, if_pos hb0]
    refine ⟨⟨?_, fun hb0 => ⟨_, _, _, h0 hb0⟩⟩, h0⟩
    rintro ⟨what, c', w', hw⟩
    by_contra hb0
    rw [hdiv a b ha hb, if_neg hb0] at hw
    cases hi : rhs.isInert
    · cases hlife : HandleLifetime (Execute fuel) lhs closure w <;>
        simp only [hi, hlife, Lifetime.read, Except.bind, Bool.false_eq_true, if_false] at hw
      · split at hw <;> cases hw
      · cases hw
      · cases hw
    · simp only [hi, if_true, Except.bind] at hw
      split at hw <;> cases hw
  · intro hz
    by_cases hN : ∃ a, lhs_arg = .Number a
    · obtain ⟨a, ha⟩ := hN
      exact ⟨"ERROR: division by 0", by rw [hdiv a 0 ha hz, if_pos rfl]⟩
    · refine ⟨"ERROR: Incorrect operation", ?_⟩
      simp only [Execute]
      exact hnum.2 (fun a b hab => hN ⟨a, hab.1⟩)

/-- C12 on `1/0`, on `"a"/0`, on `5/(1 - 1)`, whose divisor is computed, and on
`(1 + 2)/0`, whose dividend is. -/
theorem C12_Div_zero_divisor_witness :
    Execute 2 (.Div (.NumericConst 1) (.NumericConst 0)) [] World.empty =
      (.error (.runtime_error "ERROR: division by 0"), [], World.empty) ∧
    (∃ what, Execute 2 (.Div (.StringConst "a") (.NumericConst 0)) [] World.empty =
      (.error (.runtime_error what), [], World.empty)) ∧
    Execute 3 (.Div (.NumericConst 5) (.Sub (.NumericConst 1) (.NumericConst 1))) []
        World.empty =
      (.error (.runtime_error "ERROR: division by 0"), [], World.empty) ∧
    Execute 3 (.Div (.Add (.NumericConst 1) (.NumericConst 2)) (.NumericConst 0)) []
        World.empty =
      (.error (.runtime_error "ERROR: division by 0"), [], World.empty) :=
  ⟨((C12_Div_zero_divisor 1 (.NumericConst 1) (.NumericConst 0) [] [] [] World.empty
      World.empty World.empty (.Number 1) (.Number 0) rfl rfl).1 1 0 rfl rfl).2 rfl,
   (C12_Div_zero_divisor 1 (.StringConst "a") (.NumericConst 0) [] [] [] World.empty
      World.empty World.empty (.String "a") (.Number 0) rfl rfl).2 rfl,
   ((C12_Div_zero_divisor 2 (.NumericConst 5) (.Sub (.NumericConst 1) (.NumericConst 1))
      [] [] [] World.empty World.empty World.empty (.Number 5) (.Number 0) rfl rfl).1
      5 0 rfl rfl).2 rfl,
   ((C12_Div_zero_divisor 2 (.Add (.NumericConst 1) (.NumericConst 2)) (.NumericConst 0)
      [] [] [] World.empty World.empty World.empty (.Number 3) (.Number 0) rfl rfl).1
      3 0 rfl rfl).2 rfl⟩

/-- C13: `Or` whose left operand evaluates to true and `And` whose left operand
evaluates to false return that value with closure, instances and output as the
left operand left them, whatever the right operand is; with a false left
operand `Or`, and with a true one `And`, is the execution of the right operand
in the state the left operand left. -/
theorem C13_short_circuit (fuel : Nat) (lhs e : Statement) (closure c1 : Closure)
    (w w1 : World) (b : Bool)
    (hl : Execute fuel lhs closure w = (.ok (.Bool b), c1, w1)) :
    (b = true → Execute (fuel + 1) (.Or lhs e) closure w = (.ok (.Bool true), c1, w1)) ∧
    (b = false → Execute (fuel + 1) (.And lhs e) closure w = (.ok (.Bool false), c1, w1)) ∧
    (b = false → Execute (fuel + 1) (.Or lhs e) closure w = Execute fuel e c1 w1) ∧
    (b = true → Execute (fuel + 1) (.And lhs e) closure w = Execute fuel e c1 w1) := by
  refine ⟨?_, ?_, ?_, ?_⟩ <;> intro hb <;> subst hb <;>
    simp [Execute, ExecuteLogical, hl]

/-- C13 with a right operand that rebinds `x`, prints and divides by zero. -/
theorem C13_short_circuit_witness :
    Execute 4 (.Or (.BoolConst true) noisy_operand) [] World.empty =
      (.ok (.Bool true), [], World.empty) ∧
    Execute 4 (.And (.BoolConst false) noisy_operand) [] World.empty =
      (.ok (.Bool false), [], World.empty) ∧
    Execute 4 (.Or (.BoolConst false) noisy_operand) [] World.empty =
      (.error (.runtime_error "ERROR: division by 0"),
        [("x", .Number 1)], ⟨[], "evaluated\n"⟩) :=
  ⟨(C13_short_circuit 3 (.BoolConst true) noisy_operand [] [] World.empty World.empty true
      rfl).1 rfl,
   (C13_short_circuit 3 (.BoolConst false) noisy_operand [] [] World.empty World.empty false
      rfl).2.1 rfl,
   (C13_short_circuit 3 (.BoolConst false) noisy_operand [] [] World.empty World.empty false
      rfl).2.2.1 rfl⟩

/-- C14: when the condition of `IfElse`, the left operand of `Or` or `And`, or
the operand of `Not` evaluates to a value that is not a Bool, the node raises
the runtime error of a non-Bool value in the state the evaluation left, for any
branches or right operand; `Not` of the Bool `b` returns the Bool `!b`. -/
theorem C14_non_Bool_condition (fuel : Nat) (cond : Statement) (closure c1 : Closure)
    (w w1 : World) (value : ObjectHolder)
    (hc : Execute fuel cond closure w = (.ok value, c1, w1)) :
    ((∀ b, value ≠ .Bool b) →
      (∀ if_body else_body, Execute (fuel + 1) (.IfElse cond if_body else_body) closure w =
        (.error (.runtime_error "ERROR: value does not bool value"), c1, w1)) ∧
      (∀ rhs, Execute (fuel + 1) (.Or cond rhs) closure w =
        (.error (.runtime_error "ERROR: value does not bool value"), c1, w1)) ∧
      (∀ rhs, Execute (fuel + 1) (.And cond rhs) closure w =
        (.error (.runtime_error "ERROR: value does not bool value"), c1, w1)) ∧
      Execute (fuel + 1) (.Not cond) closure w =
        (.error (.runtime_error "ERROR: value does not bool value"), c1, w1)) ∧
    (∀ b, value = .Bool b →
      Execute (fuel + 1) (.Not cond) closure w = (.ok (.Bool (!b)), c1, w1)) := by
  constructor
  · intro hv
    cases value with
    | Bool b => exact absurd rfl (hv b)
    | None => simp [Execute, ExecuteLogical, hc]
    | Number n => simp [Execute, ExecuteLogical, hc]
    | String s => simp [Execute, ExecuteLogical, hc]
    | Class cls => simp [Execute, ExecuteLogical, hc]
    | ClassInstance a => simp [Execute, ExecuteLogical, hc]
  · intro b hb
    subst hb
    simp [Execute, hc]

/-- C14 on `if 1:` with branches that would print, on `None and …`, and on
`not True`. -/
theorem C14_non_Bool_condition_witness :
    Execute 2 (.IfElse (.NumericConst 1) noisy_operand (some noisy_operand)) [] World.empty =
      (.error (.runtime_error "ERROR: value does not bool value"), [], World.empty) ∧
    Execute 2 (.And .None noisy_operand) [] World.empty =
      (.error (.runtime_error "ERROR: value does not bool value"), [], World.empty) ∧
    Execute 2 (.Not (.BoolConst true)) [] World.empty = (.ok (.Bool false), [], World.empty) :=
  ⟨((C14_non_Bool_condition 1 (.NumericConst 1) [] [] World.empty World.empty (.Number 1)
      rfl).1 (fun _ h => by cases h)).1 noisy_operand (some noisy_operand),
   ((C14_non_Bool_condition 1 .None [] [] World.empty World.empty .None
      rfl).1 (fun _ h => by cases h)).2.2.1 noisy_operand,
   (C14_non_Bool_condition 1 (.BoolConst true) [] [] World.empty World.empty (.Bool true)
      rfl).2 true rfl⟩

/-- C15: `IfElse` does not select by truthiness: the programs of
`TestStringBoolConversion` (`if "123":`) and `TestNoneBoolConversion`
(`if None:`) raise the runtime error of a non-Bool value and print nothing,
although `IsTrue` is true of `"123"` and false of none. -/
theorem C15_condition_truthiness_raises :
    Execute 10 string_condition_input [] World.empty =
      (.error (.runtime_error "ERROR: value does not bool value"), [], World.empty) ∧
    Execute 10 none_condition_input [] World.empty =
      (.error (.runtime_error "ERROR: value does not bool value"), [], World.empty) ∧
    IsTrue (.String "123") = true ∧ IsTrue .None = false :=
  ⟨rfl, rfl, rfl, rfl⟩

/-- C17: `NewInstance` returns the address after the last existing instance,
where no instance is; the allocation puts an instance of the class with no field
there and leaves every existing instance as it was. Without a matching
`__init__` that is the result; with one, the result is that handle in the state
the `__init__` call left, the value the call returned being dropped. A field
write to one instance leaves the field table of every other instance and the
number of instances unchanged. -/
theorem C17_NewInstance_fresh (fuel : Nat) (class_ : Class) (args : List Statement)
    (closure : Closure) (w : World) :
    w.heap[w.heap.length]? = none ∧
    (w.alloc class_).2.heap[w.heap.length]? = some ⟨class_, []⟩ ∧
    (∀ b, b < w.heap.length → (w.alloc class_).2.heap[b]? = w.heap[b]?) ∧
    ((ClassInstance.mk class_ []).HasMethod INIT_METHOD args.length = false →
      Execute (fuel + 1) (.NewInstance class_ args) closure w =
        (.ok (.ClassInstance w.heap.length), closure, (w.alloc class_).2)) ∧
    (∀ new_args c1 w1 r w2,
      (ClassInstance.mk class_ []).HasMethod INIT_METHOD args.length = true →
      ExecuteArgs (Execute fuel) args closure (w.alloc class_).2 = (.ok new_args, c1, w1) →
      ClassInstance.Call (Execute fuel) w.heap.length INIT_METHOD new_args w1 = (.ok r, w2) →
      Execute (fuel + 1) (.NewInstance class_ args) closure w =
        (.ok (.ClassInstance w.heap.length), c1, w2)) ∧
    (∀ (w' : World) (a b : Nat) (f : String) (v : ObjectHolder), b ≠ a →
      (w'.setField a f v).Fields b = w'.Fields b ∧
      (w'.setField a f v).heap.length = w'.heap.length) := by
  refine ⟨by simp, by simp [World.alloc], ?_, ?_, ?_, ?_⟩
  · intro b hb
    simp [World.alloc, List.getElem?_append_left hb]
  · intro hno
    simp [Execute, hno, World.alloc]
  · intro new_args c1 w1 r w2 hyes hargs hcall
    have hargs' : ExecuteArgs (Execute fuel) args closure
        { heap := w.heap ++ [⟨class_, []⟩], output := w.output } = (.ok new_args, c1, w1) := hargs
    simp only [Execute, hyes, if_true, World.alloc, hargs', hcall]
  · intro w' a b f v hne
    exact ⟨Fields_setField_other w' a b f v hne, setField_length w' a f v⟩

/-- C17 on `X()` next to an existing instance, on a write to the first of two
instances of `X`, and on the program of `TextAssigment2`: `a.value` is 456 and
`b.value` is 123. -/
theorem C17_NewInstance_fresh_witness :
    Execute 6 (.NewInstance class_X123 []) [] ⟨[⟨class_Z, []⟩], ""⟩ =
      (.ok (.ClassInstance 1), [],
        ⟨[⟨class_Z, []⟩, ⟨class_X123, [("value", .Number 123)]⟩], ""⟩) ∧
    World.Fields (World.setField two_X_world 0 "value" (.Number 456)) 1 =
      World.Fields two_X_world 1 ∧
    (Execute 20 spawn_input [] World.empty).2.2.output = "Success\n456 123\n" :=
  ⟨(C17_NewInstance_fresh 5 class_X123 [] [] ⟨[⟨class_Z, []⟩], ""⟩).2.2.2.2.1
      [] [] ⟨[⟨class_Z, []⟩, ⟨class_X123, []⟩], ""⟩ .None
      ⟨[⟨class_Z, []⟩, ⟨class_X123, [("value", .Number 123)]⟩], ""⟩ rfl rfl rfl,
   ((C17_NewInstance_fresh 0 class_X123 [] [] World.empty).2.2.2.2.2
      two_X_world 0 1 "value" (.Number 456) (by decide)).1,
   rfl⟩

/-- C18: a path that does not resolve does not always raise a runtime error. The
program of `TestABC2` (`c.b.a.n` where `B` has no field `a`) and a dotted path
whose first name is unbound leave with `out_of_range`, the exception of
`map::at`; an intermediate value that is not an instance is a null
dereference. Only an unbound single name and a missing last field raise
`runtime_error`. -/
theorem C18_missing_link_unwinds :
    (Execute 20 abc2_input [] World.empty).1 = .error .out_of_range ∧
    VariableValue.Execute ["c", "b"] [] World.empty = .error .out_of_range ∧
    VariableValue.Execute ["c", "b", "a", "n"] [("c", .ClassInstance 0)]
        ⟨[⟨class_C2, [("b", .Number 5)]⟩], ""⟩ = .error .undefined ∧
    VariableValue.Execute ["c", "b", "a"] [("c", .ClassInstance 0)]
        ⟨[⟨class_C2, [("b", .Number 5)]⟩], ""⟩ = .error .undefined ∧
    VariableValue.Execute ["c"] [] World.empty = .error (.runtime_error "ERROR: Unknown name") ∧
    VariableValue.Execute ["c", "a"] [("c", .ClassInstance 0)]
        ⟨[⟨class_C2, [("b", .Number 5)]⟩], ""⟩ =
      .error (.runtime_error "ERROR: Unknown name") :=
  ⟨rfl, rfl, rfl, rfl, rfl, rfl⟩

/-- C20: a `MethodBody` whose body completes without a `Return` yields the value
of the body, not none: a bare `Assignment` yields the assigned 5, an `IfElse`
the value of its branch, an `Add` the sum. The value of a `Return` is yielded
as claimed, and a `Compound` body, whose own value is none, yields none. -/
theorem C20_MethodBody_returns_body_value :
    Execute 3 (.MethodBody (.Assignment "x" (.NumericConst 5))) [] World.empty =
      (.ok (.Number 5), [("x", .Number 5)], World.empty) ∧
    Execute 3 (.MethodBody (.IfElse (.BoolConst true) (.StringConst "then") none))
        [] World.empty =
      (.ok (.String "then"), [], World.empty) ∧
    Execute 3 (.MethodBody (.Add (.NumericConst 1) (.NumericConst 2))) [] World.empty =
      (.ok (.Number 3), [], World.empty) ∧
    Execute 3 (.MethodBody (.Return (.NumericConst 7))) [] World.empty =
      (.ok (.Number 7), [], World.empty) ∧
    Execute 4 (.MethodBody (.Compound [.Assignment "x" (.NumericConst 5)])) [] World.empty =
      (.ok .None, [("x", .Number 5)], World.empty) :=
  ⟨rfl, rfl, rfl, rfl, rfl⟩

/-! ## Lemmas on unwinding -/

/-- C23: a delegated `__eq__` or `__lt__` that returns a handle that is not a
Bool does not make the comparison fail with an error: the result is read
through `TryAs<Bool>()->GetValue()` without a check, a null dereference. With
an instance whose `__eq__` and `__lt__` return their argument, `Equal` and
`Less` against a Number, a String, an instance and none are undefined, also
through a `Comparison` node, while against a Bool they return that Bool. -/
theorem C23_non_Bool_result_is_dereferenced :
    Equal (Execute 3) (.ClassInstance 0) (.Number 1) echo_world = (.error .undefined, echo_world) ∧
    Equal (Execute 3) (.ClassInstance 0) (.String "s") echo_world =
      (.error .undefined, echo_world) ∧
    Equal (Execute 3) (.ClassInstance 0) (.ClassInstance 0) echo_world =
      (.error .undefined, echo_world) ∧
    Equal (Execute 3) (.ClassInstance 0) .None echo_world = (.error .undefined, echo_world) ∧
    Less (Execute 3) (.ClassInstance 0) (.Number 1) echo_world = (.error .undefined, echo_world) ∧
    Less (Execute 3) (.ClassInstance 0) (.String "s") echo_world =
      (.error .undefined, echo_world) ∧
    Less (Execute 3) (.ClassInstance 0) (.ClassInstance 0) echo_world =
      (.error .undefined, echo_world) ∧
    Less (Execute 3) (.ClassInstance 0) .None echo_world = (.error .undefined, echo_world) ∧
    Execute 4 (.Comparison .Equal (.VariableValue ["x"]) (.NumericConst 1))
        [("x", .ClassInstance 0)] echo_world =
      (.error .undefined, [("x", .ClassInstance 0)], echo_world) ∧
    Equal (Execute 3) (.ClassInstance 0) (.Bool true) echo_world = (.ok true, echo_world) ∧
    Less (Execute 3) (.ClassInstance 0) (.Bool false) echo_world = (.ok false, echo_world) :=
  ⟨rfl, rfl, rfl, rfl, rfl, rfl, rfl, rfl, rfl, rfl, rfl⟩

/-- C25: when the class resolves no `__init__` through its parent chain, or
resolves one whose parameter count differs from the number of arguments,
`NewInstance` returns, whatever the argument expressions are, a handle to a new
instance of the class with no field, placed after the existing instances; the
closure, the output and the existing instances are as before, so that no
argument was evaluated and no method body ran. -/
theorem C25_NewInstance_without_matching_init (fuel : Nat) (class_ : Class)
    (args : List Statement) (closure : Closure) (w : World)
    (h : class_.GetMethod INIT_METHOD = none ∨
      ∃ m, class_.GetMethod INIT_METHOD = some m ∧ m.formal_params.length ≠ args.length) :
    Execute (fuel + 1) (.NewInstance class_ args) closure w =
      (.ok (.ClassInstance w.heap.length), closure,
        ⟨w.heap ++ [⟨class_, []⟩], w.output⟩) ∧
    w.heap[w.heap.length]? = none ∧
    (w.heap ++ [ClassInstance.mk class_ []])[w.heap.length]? = some ⟨class_, []⟩ ∧
    World.Fields ⟨w.heap ++ [⟨class_, []⟩], w.output⟩ w.heap.length = some [] := by
  have hno : (ClassInstance.mk class_ []).HasMethod INIT_METHOD args.length = false := by
    cases hh : (ClassInstance.mk class_ []).HasMethod INIT_METHOD args.length with
    | false => rfl
    | true =>
      obtain ⟨m, hm, hlen⟩ := (HasMethod_iff _ _ _).mp hh
      rcases h with h | ⟨m2, hm2, hne⟩
      · simp [h] at hm
      · simp only [hm2] at hm
        cases hm
        exact absurd hlen hne
  refine ⟨by simp [Execute, hno, World.alloc], by simp, by simp, by simp [World.Fields]⟩

/-- C25 on `Z(1 / 0)`, where `Z` has no `__init__`, and on `X(1 / 0)`, where the
`__init__` of `X` takes no argument. -/
theorem C25_NewInstance_without_matching_init_witness :
    Execute 1 (.NewInstance class_Z [.Div (.NumericConst 1) (.NumericConst 0)]) [] World.empty =
      (.ok (.ClassInstance 0), [], ⟨[⟨class_Z, []⟩], ""⟩) ∧
    Execute 1 (.NewInstance class_X123 [noisy_operand]) [("x", .Number 0)]
        ⟨[⟨class_Z, []⟩], "out"⟩ =
      (.ok (.ClassInstance 1), [("x", .Number 0)],
        ⟨[⟨class_Z, []⟩, ⟨class_X123, []⟩], "out"⟩) :=
  ⟨(C25_NewInstance_without_matching_init 0 class_Z
      [.Div (.NumericConst 1) (.NumericConst 0)] [] World.empty (.inl rfl)).1,
   (C25_NewInstance_without_matching_init 0 class_X123 [noisy_operand] [("x", .Number 0)]
      ⟨[⟨class_Z, []⟩], "out"⟩
      (.inr ⟨.mk "__init__" [] (.MethodBody (.Compound
        [.FieldAssignment ["self"] "value" (.NumericConst 123)])), rfl, by decide⟩)).1⟩

/-- C26: for two none operands `Equal` is true and `NotEqual` is false, while
`Greater`, `LessOrEqual` and `GreaterOrEqual` raise the error of `Less`. For a
left operand that is an instance whose class resolves `__lt__` with one
parameter: when `__lt__` returns true, `Greater` is false and `LessOrEqual` is
true in the state the call left, whether or not the class has an `__eq__`;
when `__lt__` returns false and the class resolves no `__eq__` with one
parameter, `Greater` and `LessOrEqual` raise the error of `Equal`. -/
theorem C26_derived_predicates_inherit_failures (ex : Executor) (w : World) :
    (Equal ex .None .None w = (.ok true, w) ∧
     NotEqual ex .None .None w = (.ok false, w) ∧
     Greater ex .None .None w =
       (.error (.runtime_error "ERROR:These objects cannot be compared by less"), w) ∧
     LessOrEqual ex .None .None w =
       (.error (.runtime_error "ERROR:These objects cannot be compared by less"), w) ∧
     GreaterOrEqual ex .None .None w =
       (.error (.runtime_error "ERROR:These objects cannot be compared by less"), w)) ∧
    (∀ (address : Nat) (rhs : ObjectHolder) (self : ClassInstance) (w1 : World),
      w.heap[address]? = some self → self.HasMethod LESS_METHOD 1 = true →
      (ClassInstance.Call ex address LESS_METHOD [rhs] w = (.ok (.Bool true), w1) →
        Less ex (.ClassInstance address) rhs w = (.ok true, w1) ∧
        Greater ex (.ClassInstance address) rhs w = (.ok false, w1) ∧
        LessOrEqual ex (.ClassInstance address) rhs w = (.ok true, w1)) ∧
      (∀ self1 : ClassInstance,
        ClassInstance.Call ex address LESS_METHOD [rhs] w = (.ok (.Bool false), w1) →
        w1.heap[address]? = some self1 → self1.HasMethod EQUAL_METHOD 1 = false →
        Less ex (.ClassInstance address) rhs w = (.ok false, w1) ∧
        Greater ex (.ClassInstance address) rhs w =
          (.error (.runtime_error "ERROR:These objects cannot be compared"), w1) ∧
        LessOrEqual ex (.ClassInstance address) rhs w =
          (.error (.runtime_error "ERROR:These objects cannot be compared"), w1))) := by
  refine ⟨⟨rfl, rfl, rfl, rfl, rfl⟩, ?_⟩
  intro address rhs self w1 hself hlt
  refine ⟨?_, ?_⟩
  · intro hcall
    have hl : Less ex (.ClassInstance address) rhs w = (.ok true, w1) := by
      simp only [Less, hself, hlt, if_true, hcall]
    have hg : Greater ex (.ClassInstance address) rhs w = (.ok false, w1) := by
      simp [Greater, hl]
    exact ⟨hl, hg, by simp [LessOrEqual, hg]⟩
  · intro self1 hcall hself1 hno
    have hl : Less ex (.ClassInstance address) rhs w = (.ok false, w1) := by
      simp only [Less, hself, hlt, if_true, hcall]
    have he : Equal ex (.ClassInstance address) rhs w1 =
        (.error (.runtime_error "ERROR:These objects cannot be compared"), w1) := by
      cases rhs <;> simp [Equal, hself1, hno]
    have hg : Greater ex (.ClassInstance address) rhs w =
        (.error (.runtime_error "ERROR:These objects cannot be compared"), w1) := by
      simp [Greater, hl, he]
    exact ⟨hl, hg, by simp [LessOrEqual, hg]⟩

/-- C26 on an instance of a class with `__lt__(other)` returning `other` and no
`__eq__`: compared with `True` it is not greater; compared with `False` both
predicates raise the error of `Equal`. -/
theorem C26_derived_predicates_inherit_failures_witness :
    (Greater (Execute 3) (.ClassInstance 0) (.Bool true) ⟨[⟨class_L, []⟩], ""⟩ =
      (.ok false, ⟨[⟨class_L, []⟩], ""⟩) ∧
     LessOrEqual (Execute 3) (.ClassInstance 0) (.Bool true) ⟨[⟨class_L, []⟩], ""⟩ =
      (.ok true, ⟨[⟨class_L, []⟩], ""⟩)) ∧
    (Greater (Execute 3) (.ClassInstance 0) (.Bool false) ⟨[⟨class_L, []⟩], ""⟩ =
      (.error (.runtime_error "ERROR:These objects cannot be compared"),
        ⟨[⟨class_L, []⟩], ""⟩) ∧
     LessOrEqual (Execute 3) (.ClassInstance 0) (.Bool false) ⟨[⟨class_L, []⟩], ""⟩ =
      (.error (.runtime_error "ERROR:These objects cannot be compared"),
        ⟨[⟨class_L, []⟩], ""⟩)) :=
  ⟨(((C26_derived_predicates_inherit_failures (Execute 3) ⟨[⟨class_L, []⟩], ""⟩).2
      0 (.Bool true) ⟨class_L, []⟩ ⟨[⟨class_L, []⟩], ""⟩ rfl rfl).1 rfl).2,
   (((C26_derived_predicates_inherit_failures (Execute 3) ⟨[⟨class_L, []⟩], ""⟩).2
      0 (.Bool false) ⟨class_L, []⟩ ⟨[⟨class_L, []⟩], ""⟩ rfl rfl).2
      ⟨class_L, []⟩ rfl rfl rfl).2⟩

end Mython
